import Mathlib

/-!
Verification of the `ShortTrapBuster` strategy (`short_trap_buster.py`).

The strategy's `run` coroutine is embedded as a pure function over a
per-symbol state and an invocation input.  Quantities that the source
obtains from external collaborators (the pandas resampling pipeline,
`add_daily_vwap`, talib's `MACD`, `anchored_vwap`, the trading API) enter
the model as oracle fields of the input; everything the source file itself
computes (condition evaluation with Python short-circuiting and positional
indexing, rounding, state mutation, position sizing, the retry loop, the
sell bracket logic) is translated directly.

Numbers are modelled as rationals; Python's `round` (banker's rounding) is
`pyRound`, `int()` truncation is `truncQ`, and a positional index `s[-k]`
on a series is `back s (k-1)`, which raises `IndexError` out of range.
-/

namespace STB

/-- an exception escaping the `run` coroutine -/
inductive RErr where
  | indexError
  | keyError
  | configError
  | apiError
deriving DecidableEq

/-- one attempt of `trading_api.get_account()`: a result, a
`ConnectionError`, or some other exception (which `run` does not catch) -/
inductive FetchOutcome where
  | ok (v : ℚ)
  | connErr
  | otherErr

/-- outcome of resolving the portfolio value on the buy path -/
inductive PVRes where
  | got (v : ℚ)
  | failed
  | fatal
  | raised
deriving DecidableEq

/-- the order dictionary returned by `run` together with `True` -/
structure OrderIntent where
  side : String
  qty : ℤ
  otype : String
  limit_price : Option ℚ
deriving DecidableEq

/-- result of one invocation: `(False, {})`, `(True, order)`, or an
uncaught exception -/
inductive Outcome where
  | noSignal
  | order (o : OrderIntent)
  | err (e : RErr)
deriving DecidableEq

/-- the 5-minute resampled data as produced by the pandas pipeline and
`add_daily_vwap` / `MACD` (oracle input; series listed oldest first) -/
structure Resampled where
  close5 : List ℚ
  open5 : List ℚ
  vwap5 : List ℚ
  macd : List ℚ
  macdSig : List ℚ
  macdHist : List ℚ

/-- the per-symbol entries of the mutable module-level dictionaries read
and written by `run`: the class dictionaries `was_above_vwap`,
`potential_trap`, `trap_start_time` and the `trading_data` dictionaries
`stop_prices`, `target_prices`, `sell_indicators` (its `reasons` field) -/
structure SymState where
  was_above_vwap : Bool
  potential_trap : Bool
  trap_start_time : Option ℕ
  stop_price : Option ℚ
  target_price : Option ℚ
  sell_reasons : Option (List String)
deriving DecidableEq

/-- one invocation's inputs: the `run` arguments plus the values the
external collaborators would return during this invocation -/
structure RunInput where
  shortable : Bool
  position : ℤ
  mClose : List ℚ
  mOpen : List ℚ
  mAverage : List ℚ
  mVwap : List ℚ
  mVolume : List ℚ
  now : ℕ
  is_buy_time : Bool
  is_sell_time : Bool
  open_order : Bool
  last_used_strategy : Option String
  resampled : Option Resampled
  anchored : ℕ → List ℚ
  portfolio_value : Option ℚ
  trading_api : Option (ℕ → FetchOutcome)

/-- the strategy's `name` attribute -/
def strategy_name : String := "short_trap_buster"

/-- round a rational to the nearest integer, ties to even (the rounding
used by Python's `round` and pandas' `Series.round`) -/
def rnd (y : ℚ) : ℤ :=
  if y - ⌊y⌋ < 1/2 then ⌊y⌋
  else if (1:ℚ)/2 < y - ⌊y⌋ then ⌊y⌋ + 1
  else if 2 ∣ ⌊y⌋ then ⌊y⌋ else ⌊y⌋ + 1

/-- Python's `round(x, p)` for nonnegative `p` -/
def pyRound (p : ℕ) (x : ℚ) : ℚ := (rnd (x * 10 ^ p) : ℚ) / 10 ^ p

/-- Python's `int()` truncation toward zero -/
def truncQ (q : ℚ) : ℤ := if 0 ≤ q then ⌊q⌋ else -⌊-q⌋

/-- positional indexing from the end: `back l k` is Python's `l[-(k+1)]`,
an `IndexError` when the series is too short -/
def back (l : List ℚ) (k : ℕ) : Except RErr ℚ :=
  match l.reverse.get? k with
  | some v => .ok v
  | none => .error .indexError

/-- total variant of `back` used to state properties: the value of
`l[-(k+1)]` (defaulting to 0 out of range) -/
def nb (l : List ℚ) (k : ℕ) : ℚ := l.reverse.getD k 0

/-- Python's `l[-n:]` -/
def lastN (n : ℕ) (l : List ℚ) : List ℚ := l.drop (l.length - n)

/-- Modelled from the spec: the external `get_series_trend` collaborator
(`liualgotrader.fincalcs.trends`) is, per the specification, the
ordinary-least-squares slope of a series against its index. -/
def olsSlope (l : List ℚ) : ℚ :=
  let n : ℚ := l.length
  let xs : List ℚ := (List.range l.length).map (fun i => (i : ℚ))
  let sx := xs.sum
  let sy := l.sum
  let sxy := ((xs.zip l).map (fun p => p.1 * p.2)).sum
  let sxx := (xs.map (fun x => x * x)).sum
  let d := n * sxx - sx * sx
  if d = 0 then 0 else (n * sxy - sx * sy) / d

/-- Python's `and` over possibly-raising boolean operands -/
def pAnd : Except RErr Bool → Except RErr Bool → Except RErr Bool
  | .error e, _ => .error e
  | .ok false, _ => .ok false
  | .ok true, b => b

/-- strict `<` over possibly-raising operands, left evaluated first -/
def pLt : Except RErr ℚ → Except RErr ℚ → Except RErr Bool
  | .error e, _ => .error e
  | .ok _, .error e => .error e
  | .ok a, .ok b => .ok (decide (a < b))

/-- strict `>` over possibly-raising operands, left evaluated first -/
def pGt : Except RErr ℚ → Except RErr ℚ → Except RErr Bool
  | .error e, _ => .error e
  | .ok _, .error e => .error e
  | .ok a, .ok b => .ok (decide (b < a))

/-- Python's chained `x < y < 0`: both operands are evaluated, the second
comparison only decided when the first holds -/
def chainLt0 : Except RErr ℚ → Except RErr ℚ → Except RErr Bool
  | .error e, _ => .error e
  | .ok _, .error e => .error e
  | .ok a, .ok b => .ok (decide (a < b) && decide (b < 0))

/-- Python's chained `x < y < z < 0` (line 165): `z` is only evaluated
when `x < y` already holds -/
def histChain (x y z : Except RErr ℚ) : Except RErr Bool :=
  match x with
  | .error e => .error e
  | .ok a =>
    match y with
    | .error e => .error e
    | .ok b =>
      if a < b then
        match z with
        | .error e => .error e
        | .ok c => .ok (decide (b < c) && decide (c < 0))
      else .ok false

/-- Python's chained `a < y < z` with a pure first operand (lines
167-169): `z` is only evaluated when `a < y` already holds -/
def mcChain (a : ℚ) (y z : Except RErr ℚ) : Except RErr Bool :=
  match y with
  | .error e => .error e
  | .ok b =>
    if a < b then
      match z with
      | .error e => .error e
      | .ok c => .ok (decide (b < c))
    else .ok false

/-- the `NONE to CANDIDATE` condition of lines 157-169, evaluated with
Python's short-circuiting over the rounded series `cl` (5-min closes),
`vw` (vwap), raw `op` (5-min opens), rounded `ma`/`sg`/`hi` (MACD line,
signal, histogram), the latest raw bar's close `dc` and open `dop`, and
the raw minute closes `mc` -/
def candCond (cl vw op ma sg hi : List ℚ) (dc dop : ℚ) (mc : List ℚ) :
    Except RErr Bool :=
  pAnd (pLt (back cl 0) (back vw 0))
    (pAnd (pLt (back cl 1) (back vw 1))
      (pAnd (pLt (back cl 2) (back vw 2))
        (pAnd (pLt (back cl 0) (back op 0))
          (pAnd (pLt (back cl 1) (back op 1))
            (pAnd (pLt (back cl 2) (back op 2))
              (pAnd (chainLt0 (back ma 0) (back sg 0))
                (pAnd (pLt (back ma 0) (.ok 0))
                  (pAnd (histChain (back hi 0) (back hi 1) (back hi 2))
                    (pAnd (.ok (decide (dc < dop)))
                      (mcChain dc (back mc 1) (back mc 2)))))))))))

/-- the same condition as a plain proposition (well-defined once every
series holds at least the indexed number of points) -/
abbrev trapCandidateCond (cl vw op ma sg hi : List ℚ) (dc dop : ℚ)
    (mc : List ℚ) : Prop :=
  nb cl 0 < nb vw 0 ∧
    (nb cl 1 < nb vw 1 ∧
      (nb cl 2 < nb vw 2 ∧
        (nb cl 0 < nb op 0 ∧
          (nb cl 1 < nb op 1 ∧
            (nb cl 2 < nb op 2 ∧
              ((nb ma 0 < nb sg 0 ∧ nb sg 0 < 0) ∧
                (nb ma 0 < 0 ∧
                  ((nb hi 0 < nb hi 1 ∧ (nb hi 1 < nb hi 2 ∧ nb hi 2 < 0)) ∧
                    (dc < dop ∧
                      (dc < nb mc 1 ∧ nb mc 1 < nb mc 2))))))))))

/-- the `CANDIDATE` confirmation test of lines 181-185: at least 11
anchored-vwap points and the last two raw minute closes above the
anchored vwap at the same offsets -/
def confirmEval (av mc : List ℚ) : Except RErr Bool :=
  if 10 < av.length then
    pAnd (pGt (back mc 0) (back av 0)) (pGt (back mc 1) (back av 1))
  else .ok false

/-- the retry loop of lines 207-219: up to `retry` attempts, retrying
only on `ConnectionError`; any other exception escapes -/
def fetchLoop (f : ℕ → FetchOutcome) : ℕ → ℕ → PVRes
  | _, 0 => .failed
  | i, r + 1 =>
    match f i with
    | .ok v => .got v
    | .connErr => fetchLoop f (i + 1) r
    | .otherErr => .raised

/-- the `not portfolio_value` test of line 221 applied to the loop's
result: a fetched zero is falsy and counts as a failure -/
def pvOfLoop : PVRes → PVRes
  | .got v => if v = 0 then .failed else .got v
  | r => r

/-- resolution of the portfolio value on the buy path (lines 205-229):
a supplied value is used as-is; otherwise the API is polled up to three
times; a missing API is a fatal contract violation; a fetched falsy
(zero) value counts as a failure by the `not portfolio_value` test -/
def resolvePV (I : RunInput) : PVRes :=
  match I.portfolio_value with
  | some v => .got v
  | none =>
    match I.trading_api with
    | none => .fatal
    | some f => pvOfLoop (fetchLoop f 0 3)

/-- the sticky `was_above_vwap` update of lines 71-73 -/
def stickyUpdate (st : SymState) (dc dav : ℚ) : SymState :=
  if dav < dc then { st with was_above_vwap := true } else st

/-- reading the latest bar (`minute_history.iloc[-1]`, line 71): close,
open, average, vwap -/
def extractData (I : RunInput) : Except RErr (ℚ × ℚ × ℚ × ℚ) :=
  match back I.mClose 0 with
  | .error e => .error e
  | .ok dc =>
    match back I.mOpen 0 with
    | .error e => .error e
    | .ok dop =>
      match back I.mAverage 0 with
      | .error e => .error e
      | .ok dav =>
        match back I.mVwap 0 with
        | .error e => .error e
        | .ok dvw => .ok (dc, dop, dav, dvw)

/-- the sell path of lines 257-291: strategy-match and bracket lookups
are unguarded dictionary accesses; the stop test is checked before the
target test; either emits a full-size market sell and records the
reasons in `sell_indicators` -/
def sellSection (st : SymState) (I : RunInput) (dc : ℚ) :
    SymState × Outcome :=
  if I.is_sell_time = true ∧ I.position ≠ 0 then
    match I.last_used_strategy with
    | none => (st, .err .keyError)
    | some nm =>
      if nm = strategy_name ∧ I.open_order = false then
        match st.stop_price with
        | none => (st, .err .keyError)
        | some sp =>
          if dc ≤ sp then
            ({ st with sell_reasons := some ["stopped"] },
              .order ⟨"sell", I.position, "market", none⟩)
          else
            match st.target_price with
            | none => (st, .err .keyError)
            | some tp =>
              if tp ≤ dc then
                ({ st with sell_reasons := some ["above target"] },
                  .order ⟨"sell", I.position, "market", none⟩)
              else (st, .noSignal)
      else (st, .noSignal)
  else (st, .noSignal)

/-- lines 199-255: when `to_buy` is set the bracket is stored (before the
portfolio value is resolved), the position is sized and a limit buy is
emitted; otherwise control falls through to the sell path.  `v` is the
rounded vwap series -/
def afterBuy (st : SymState) (I : RunInput) (dc : ℚ) (toBuy : Bool)
    (v : List ℚ) : SymState × Outcome :=
  if toBuy then
    match back v 0 with
    | .error e => (st, .err e)
    | .ok vlast =>
      let stop_price := vlast * (98/100)
      let target_price := stop_price * (11/10)
      let st2 := { st with stop_price := some (pyRound 2 stop_price),
                           target_price := some (pyRound 2 target_price) }
      match resolvePV I with
      | .fatal => (st2, .err .configError)
      | .raised => (st2, .err .apiError)
      | .failed => (st2, .noSignal)
      | .got pv =>
        let q := truncQ (pv * (2/100) / dc)
        (st2, .order ⟨"buy", if q = 0 then 1 else q, "limit", some dc⟩)
  else sellSection st I dc

/-- the rounding of line 153: `close = close.round(3)` -/
def rCl (R : Resampled) : List ℚ := R.close5.map (pyRound 3)

/-- the rounding of line 152: `vwap_series = vwap_series.round(3)` -/
def rVw (R : Resampled) : List ℚ := R.vwap5.map (pyRound 3)

/-- the rounding of line 149: `macd = macds[0].round(3)` -/
def rMa (R : Resampled) : List ℚ := R.macd.map (pyRound 3)

/-- the rounding of line 150: `macd_signal = macds[1].round(3)` -/
def rSg (R : Resampled) : List ℚ := R.macdSig.map (pyRound 3)

/-- the rounding of line 151: `macd_hist = macds[2].round(3)` -/
def rHi (R : Resampled) : List ℚ := R.macdHist.map (pyRound 3)

/-- lines 129-197: the candidate search.  With no candidate pending the
`NONE to CANDIDATE` condition is evaluated (line 155); with a candidate
pending the anchored-vwap confirmation is evaluated (line 177) and a
steeper close trend than anchored-vwap trend sets `to_buy` -/
def buyBranch (st : SymState) (I : RunInput) (dc dop : ℚ) (R : Resampled) :
    SymState × Outcome :=
  let v := rVw R
  if st.potential_trap = false then
    match candCond (rCl R) v R.open5 (rMa R) (rSg R) (rHi R) dc dop
        I.mClose with
    | .error e => (st, .err e)
    | .ok true =>
      ({ st with potential_trap := true, trap_start_time := some I.now },
        .noSignal)
    | .ok false => afterBuy st I dc false v
  else
    match st.trap_start_time with
    | none => (st, .err .keyError)
    | some t0 =>
      let av := I.anchored t0
      match confirmEval av I.mClose with
      | .error e => (st, .err e)
      | .ok false => afterBuy st I dc false v
      | .ok true =>
        afterBuy st I dc
          (decide (olsSlope (lastN 10 av) < olsSlope (lastN 10 I.mClose)))
          v

/-- lines 75-131 and 257: the buy-window gate; a failed
`add_daily_vwap` (modelled as `resampled = none`) aborts silently -/
def runBody (st : SymState) (I : RunInput) (dc dop : ℚ) :
    SymState × Outcome :=
  if I.is_buy_time = true ∧ I.position = 0 ∧ I.open_order = false ∧
      st.was_above_vwap = true then
    match I.resampled with
    | none => (st, .noSignal)
    | some R => buyBranch st I dc dop R
  else sellSection st I dc

/-- the whole of `ShortTrapBuster.run` -/
def run (st : SymState) (I : RunInput) : SymState × Outcome :=
  if I.shortable = true then
    match extractData I with
    | .error e => (st, .err e)
    | .ok (dc, dop, dav, _) => runBody (stickyUpdate st dc dav) I dc dop
  else (st, .noSignal)

/-! Basic facts about positional indexing and the short-circuit
combinators. -/

theorem back_ok {l : List ℚ} {k : ℕ} (h : k < l.length) :
    back l k = .ok (nb l k) := by
  unfold back nb
  rcases h' : l.reverse.get? k with _ | v
  · rw [List.get?_eq_none] at h'
    rw [List.length_reverse] at h'
    omega
  · rw [List.getD_eq_get?, h']
    rfl

theorem back_err {l : List ℚ} {k : ℕ} (h : l.length ≤ k) :
    back l k = .error .indexError := by
  unfold back
  rcases h' : l.reverse.get? k with _ | v
  · rfl
  · have hlt : k < l.reverse.length := (List.get?_eq_some.mp h').1
    rw [List.length_reverse] at hlt
    omega

theorem back_ok_inv {l : List ℚ} {k : ℕ} {x : ℚ} (h : back l k = .ok x) :
    k < l.length ∧ x = nb l k := by
  unfold back at h
  rcases h' : l.reverse.get? k with _ | v
  · rw [h'] at h
    exact absurd h (by simp)
  · rw [h'] at h
    have hlt : k < l.reverse.length := (List.get?_eq_some.mp h').1
    rw [List.length_reverse] at hlt
    refine ⟨hlt, ?_⟩
    cases h
    unfold nb
    rw [List.getD_eq_get?, h']
    rfl

@[simp] theorem pAnd_err (e : RErr) (b : Except RErr Bool) :
    pAnd (.error e) b = .error e := rfl

@[simp] theorem pAnd_false (b : Except RErr Bool) :
    pAnd (.ok false) b = .ok false := rfl

@[simp] theorem pAnd_true (b : Except RErr Bool) :
    pAnd (.ok true) b = b := rfl

theorem pAnd_okd (p : Prop) [Decidable p] (x : Except RErr Bool) :
    pAnd (.ok (decide p)) x = if p then x else .ok false := by
  by_cases h : p <;> simp [h]

theorem ite_okd (p q : Prop) [Decidable p] [Decidable q] :
    (if p then (Except.ok (decide q) : Except RErr Bool) else .ok false) =
      .ok (decide (p ∧ q)) := by
  by_cases h : p <;> simp [h]

theorem pAnd_eq_true_iff {a b : Except RErr Bool} :
    pAnd a b = .ok true ↔ a = .ok true ∧ b = .ok true := by
  cases a with
  | error e => simp [pAnd]
  | ok v => cases v <;> simp [pAnd]

theorem pLt_ok_left {x y : Except RErr ℚ} {b : Bool}
    (h : pLt x y = .ok b) : ∃ a, x = .ok a := by
  cases x with
  | error e => simp [pLt] at h
  | ok a => exact ⟨a, rfl⟩

/-- the short-circuit evaluation of the candidate condition agrees with
the plain proposition once every indexed series is long enough -/
theorem candCond_eq (cl vw op ma sg hi : List ℚ) (dc dop : ℚ)
    (mc : List ℚ) (h1 : 3 ≤ cl.length) (h2 : 3 ≤ vw.length)
    (h3 : 3 ≤ op.length) (h4 : 1 ≤ ma.length) (h5 : 1 ≤ sg.length)
    (h6 : 3 ≤ hi.length) (h7 : 3 ≤ mc.length) :
    candCond cl vw op ma sg hi dc dop mc =
      .ok (decide (trapCandidateCond cl vw op ma sg hi dc dop mc)) := by
  unfold candCond trapCandidateCond
  rw [back_ok (show 0 < cl.length by omega),
    back_ok (show 0 < vw.length by omega),
    back_ok (show 1 < cl.length by omega),
    back_ok (show 1 < vw.length by omega),
    back_ok (show 2 < cl.length by omega),
    back_ok (show 2 < vw.length by omega),
    back_ok (show 0 < op.length by omega),
    back_ok (show 1 < op.length by omega),
    back_ok (show 2 < op.length by omega),
    back_ok (show 0 < ma.length by omega),
    back_ok (show 0 < sg.length by omega),
    back_ok (show 0 < hi.length by omega),
    back_ok (show 1 < hi.length by omega),
    back_ok (show 2 < hi.length by omega),
    back_ok (show 1 < mc.length by omega),
    back_ok (show 2 < mc.length by omega)]
  simp only [pLt, chainLt0, histChain, mcChain, ← Bool.decide_and, ite_okd,
    pAnd_okd]

/-- with fewer than three 5-minute closes the candidate condition can
never evaluate to `True`: its third comparison already indexes out of
range -/
theorem candCond_not_true {cl vw op ma sg hi : List ℚ} {dc dop : ℚ}
    {mc : List ℚ} (h : cl.length < 3) :
    candCond cl vw op ma sg hi dc dop mc ≠ .ok true := by
  intro hEq
  unfold candCond at hEq
  have t1 := (pAnd_eq_true_iff.mp hEq).2
  have t2 := (pAnd_eq_true_iff.mp t1).2
  have t3 := (pAnd_eq_true_iff.mp t2).1
  obtain ⟨a, ha⟩ := pLt_ok_left t3
  have := (back_ok_inv ha).1
  omega

/-- the confirmation test agrees with the plain proposition once the
minute-close series has at least two points -/
theorem confirmEval_eq (av mc : List ℚ) (hmc : 2 ≤ mc.length) :
    confirmEval av mc =
      .ok (decide (10 < av.length ∧
        (nb av 0 < nb mc 0 ∧ nb av 1 < nb mc 1))) := by
  unfold confirmEval
  by_cases hav : 10 < av.length
  · rw [if_pos hav,
      back_ok (show 0 < mc.length by omega),
      back_ok (show 1 < mc.length by omega),
      back_ok (show 0 < av.length by omega),
      back_ok (show 1 < av.length by omega)]
    simp only [pGt, pAnd_okd, ite_okd]
    congr 1
    simp [hav]
  · rw [if_neg hav]
    simp [hav]

/-! Structural facts about the stages of `run`. -/

@[simp] theorem stickyUpdate_pt (st : SymState) (dc dav : ℚ) :
    (stickyUpdate st dc dav).potential_trap = st.potential_trap := by
  unfold stickyUpdate
  split <;> rfl

@[simp] theorem stickyUpdate_tst (st : SymState) (dc dav : ℚ) :
    (stickyUpdate st dc dav).trap_start_time = st.trap_start_time := by
  unfold stickyUpdate
  split <;> rfl

@[simp] theorem stickyUpdate_sp (st : SymState) (dc dav : ℚ) :
    (stickyUpdate st dc dav).stop_price = st.stop_price := by
  unfold stickyUpdate
  split <;> rfl

@[simp] theorem stickyUpdate_tp (st : SymState) (dc dav : ℚ) :
    (stickyUpdate st dc dav).target_price = st.target_price := by
  unfold stickyUpdate
  split <;> rfl

@[simp] theorem stickyUpdate_sr (st : SymState) (dc dav : ℚ) :
    (stickyUpdate st dc dav).sell_reasons = st.sell_reasons := by
  unfold stickyUpdate
  split <;> rfl

theorem stickyUpdate_wav (st : SymState) (dc dav : ℚ)
    (h : st.was_above_vwap = true) :
    (stickyUpdate st dc dav).was_above_vwap = true := by
  unfold stickyUpdate
  split <;> simp [h]

theorem sellSection_fields (st : SymState) (I : RunInput) (dc : ℚ) :
    (sellSection st I dc).1.was_above_vwap = st.was_above_vwap ∧
      (sellSection st I dc).1.potential_trap = st.potential_trap ∧
      (sellSection st I dc).1.trap_start_time = st.trap_start_time ∧
      (sellSection st I dc).1.stop_price = st.stop_price ∧
      (sellSection st I dc).1.target_price = st.target_price := by
  unfold sellSection
  repeat' split
  all_goals simp

theorem sellSection_order_side (st : SymState) (I : RunInput) (dc : ℚ)
    (o : OrderIntent) (h : (sellSection st I dc).2 = .order o) :
    o = ⟨"sell", I.position, "market", none⟩ := by
  unfold sellSection at h
  repeat' split at h
  all_goals simp_all

theorem sellSection_noSignal_state (st : SymState) (I : RunInput) (dc : ℚ)
    (h : (sellSection st I dc).2 = .noSignal) :
    (sellSection st I dc).1 = st := by
  unfold sellSection at h ⊢
  repeat' split
  all_goals simp_all

/-- a false `to_buy` falls through to the sell path -/
theorem afterBuy_false (st : SymState) (I : RunInput) (dc : ℚ)
    (v : List ℚ) : afterBuy st I dc false v = sellSection st I dc := rfl

/-- the stored bracket after line 203 -/
def bracketState (st : SymState) (vlast : ℚ) : SymState :=
  { st with stop_price := some (pyRound 2 (vlast * (98/100))),
            target_price := some (pyRound 2 (vlast * (98/100) * (11/10))) }

/-- the emitted order quantity of lines 231-233 -/
def sizedQty (pv dc : ℚ) : ℤ :=
  if truncQ (pv * (2/100) / dc) = 0 then 1 else truncQ (pv * (2/100) / dc)

theorem afterBuy_got (st : SymState) (I : RunInput) (dc : ℚ) (v : List ℚ)
    (vlast pv : ℚ) (hv : back v 0 = .ok vlast)
    (hpv : resolvePV I = .got pv) :
    afterBuy st I dc true v =
      (bracketState st vlast,
        .order ⟨"buy", sizedQty pv dc, "limit", some dc⟩) := by
  unfold afterBuy bracketState sizedQty
  rw [hv, hpv]
  simp

theorem afterBuy_failed (st : SymState) (I : RunInput) (dc : ℚ)
    (v : List ℚ) (vlast : ℚ) (hv : back v 0 = .ok vlast)
    (hpv : resolvePV I = .failed) :
    afterBuy st I dc true v = (bracketState st vlast, .noSignal) := by
  unfold afterBuy bracketState
  rw [hv, hpv]
  simp

theorem afterBuy_fatal (st : SymState) (I : RunInput) (dc : ℚ)
    (v : List ℚ) (vlast : ℚ) (hv : back v 0 = .ok vlast)
    (hpv : resolvePV I = .fatal) :
    afterBuy st I dc true v = (bracketState st vlast, .err .configError) := by
  unfold afterBuy bracketState
  rw [hv, hpv]
  simp

theorem afterBuy_raised (st : SymState) (I : RunInput) (dc : ℚ)
    (v : List ℚ) (vlast : ℚ) (hv : back v 0 = .ok vlast)
    (hpv : resolvePV I = .raised) :
    afterBuy st I dc true v = (bracketState st vlast, .err .apiError) := by
  unfold afterBuy bracketState
  rw [hv, hpv]
  simp

theorem afterBuy_pt (st : SymState) (I : RunInput) (dc : ℚ) (tb : Bool)
    (v : List ℚ) :
    (afterBuy st I dc tb v).1.potential_trap = st.potential_trap ∧
      (afterBuy st I dc tb v).1.trap_start_time = st.trap_start_time := by
  unfold afterBuy
  repeat' split
  all_goals simp [sellSection_fields]

/-- reaching `runBody` under a shortable symbol with a nonempty history -/
theorem run_eq_runBody (st : SymState) (I : RunInput)
    (h0 : I.shortable = true) (h1 : I.mClose ≠ []) (h2 : I.mOpen ≠ [])
    (h3 : I.mAverage ≠ []) (h4 : I.mVwap ≠ []) :
    run st I =
      runBody (stickyUpdate st (nb I.mClose 0) (nb I.mAverage 0)) I
        (nb I.mClose 0) (nb I.mOpen 0) := by
  have he : extractData I =
      .ok (nb I.mClose 0, nb I.mOpen 0, nb I.mAverage 0, nb I.mVwap 0) := by
    unfold extractData
    rw [back_ok (List.length_pos.mpr h1), back_ok (List.length_pos.mpr h2),
      back_ok (List.length_pos.mpr h3), back_ok (List.length_pos.mpr h4)]
  unfold run
  rw [if_pos h0, he]

theorem runBody_buy (st : SymState) (I : RunInput) (dc dop : ℚ)
    (R : Resampled) (hb : I.is_buy_time = true) (hp : I.position = 0)
    (ho : I.open_order = false) (hw : st.was_above_vwap = true)
    (hr : I.resampled = some R) :
    runBody st I dc dop = buyBranch st I dc dop R := by
  unfold runBody
  rw [if_pos ⟨hb, hp, ho, hw⟩, hr]

theorem runBody_nores (st : SymState) (I : RunInput) (dc dop : ℚ)
    (hb : I.is_buy_time = true) (hp : I.position = 0)
    (ho : I.open_order = false) (hw : st.was_above_vwap = true)
    (hr : I.resampled = none) :
    runBody st I dc dop = (st, .noSignal) := by
  unfold runBody
  rw [if_pos ⟨hb, hp, ho, hw⟩, hr]

theorem runBody_sell (st : SymState) (I : RunInput) (dc dop : ℚ)
    (h : ¬(I.is_buy_time = true ∧ I.position = 0 ∧ I.open_order = false ∧
      st.was_above_vwap = true)) :
    runBody st I dc dop = sellSection st I dc := by
  unfold runBody
  rw [if_neg h]

theorem buyBranch_cand_err (st : SymState) (I : RunInput) (dc dop : ℚ)
    (R : Resampled) (e : RErr) (hpt : st.potential_trap = false)
    (hc : candCond (rCl R) (rVw R) R.open5 (rMa R) (rSg R) (rHi R) dc dop
      I.mClose = .error e) :
    buyBranch st I dc dop R = (st, .err e) := by
  unfold buyBranch
  rw [if_pos hpt, hc]

theorem buyBranch_cand_fire (st : SymState) (I : RunInput) (dc dop : ℚ)
    (R : Resampled) (hpt : st.potential_trap = false)
    (hc : candCond (rCl R) (rVw R) R.open5 (rMa R) (rSg R) (rHi R) dc dop
      I.mClose = .ok true) :
    buyBranch st I dc dop R =
      ({ st with potential_trap := true, trap_start_time := some I.now },
        .noSignal) := by
  unfold buyBranch
  rw [if_pos hpt, hc]

theorem buyBranch_cand_skip (st : SymState) (I : RunInput) (dc dop : ℚ)
    (R : Resampled) (hpt : st.potential_trap = false)
    (hc : candCond (rCl R) (rVw R) R.open5 (rMa R) (rSg R) (rHi R) dc dop
      I.mClose = .ok false) :
    buyBranch st I dc dop R = sellSection st I dc := by
  unfold buyBranch
  rw [if_pos hpt, hc]
  rfl

theorem buyBranch_conf_key (st : SymState) (I : RunInput) (dc dop : ℚ)
    (R : Resampled) (hpt : st.potential_trap = true)
    (ht : st.trap_start_time = none) :
    buyBranch st I dc dop R = (st, .err .keyError) := by
  unfold buyBranch
  rw [if_neg (by simp [hpt]), ht]

theorem buyBranch_conf_err (st : SymState) (I : RunInput) (dc dop : ℚ)
    (R : Resampled) (t0 : ℕ) (e : RErr) (hpt : st.potential_trap = true)
    (ht : st.trap_start_time = some t0)
    (hc : confirmEval (I.anchored t0) I.mClose = .error e) :
    buyBranch st I dc dop R = (st, .err e) := by
  unfold buyBranch
  rw [if_neg (by simp [hpt]), ht]
  simp only [hc]

theorem buyBranch_conf_skip (st : SymState) (I : RunInput) (dc dop : ℚ)
    (R : Resampled) (t0 : ℕ) (hpt : st.potential_trap = true)
    (ht : st.trap_start_time = some t0)
    (hc : confirmEval (I.anchored t0) I.mClose = .ok false) :
    buyBranch st I dc dop R = sellSection st I dc := by
  unfold buyBranch
  rw [if_neg (by simp [hpt]), ht]
  simp only [hc]
  rfl

theorem buyBranch_conf_go (st : SymState) (I : RunInput) (dc dop : ℚ)
    (R : Resampled) (t0 : ℕ) (hpt : st.potential_trap = true)
    (ht : st.trap_start_time = some t0)
    (hc : confirmEval (I.anchored t0) I.mClose = .ok true) :
    buyBranch st I dc dop R =
      afterBuy st I dc
        (decide (olsSlope (lastN 10 (I.anchored t0)) <
          olsSlope (lastN 10 I.mClose))) (rVw R) := by
  unfold buyBranch
  rw [if_neg (by simp [hpt]), ht]
  simp only [hc]

/-! Evaluation helpers for the rounding functions. -/

theorem rnd_intCast (z : ℤ) : rnd ((z : ℚ)) = z := by
  unfold rnd
  rw [Int.floor_intCast]
  rw [if_pos]
  rw [sub_self]
  norm_num

theorem pyRound_intCast (p : ℕ) (z : ℤ) : pyRound p ((z : ℚ)) = (z : ℚ) := by
  unfold pyRound
  rw [show ((z:ℚ) * 10 ^ p) = (((z * 10 ^ p : ℤ) : ℚ)) by push_cast; ring]
  rw [rnd_intCast]
  push_cast
  have hp : ((10:ℚ)) ^ p ≠ 0 := by positivity
  field_simp

theorem afterBuy_true_err (st : SymState) (I : RunInput) (dc : ℚ)
    (v : List ℚ) (e : RErr) (hv : back v 0 = .error e) :
    afterBuy st I dc true v = (st, .err e) := by
  unfold afterBuy
  rw [hv]
  simp

theorem extractData_ok_inv {I : RunInput} {dc dop dav dvw : ℚ}
    (h : extractData I = .ok (dc, dop, dav, dvw)) :
    dc = nb I.mClose 0 ∧ dop = nb I.mOpen 0 := by
  unfold extractData at h
  cases h1 : back I.mClose 0 with
  | error e => rw [h1] at h; exact absurd h (by simp)
  | ok a =>
    rw [h1] at h
    cases h2 : back I.mOpen 0 with
    | error e => rw [h2] at h; exact absurd h (by simp)
    | ok b =>
      rw [h2] at h
      cases h3 : back I.mAverage 0 with
      | error e => rw [h3] at h; exact absurd h (by simp)
      | ok c =>
        rw [h3] at h
        cases h4 : back I.mVwap 0 with
        | error e => rw [h4] at h; exact absurd h (by simp)
        | ok d =>
          rw [h4] at h
          simp only [Except.ok.injEq, Prod.mk.injEq] at h
          obtain ⟨e1, e2, e3, e4⟩ := h
          exact ⟨e1 ▸ (back_ok_inv h1).2, e2 ▸ (back_ok_inv h2).2⟩

/-- full characterization of one invocation: either the trap state and
bracket are untouched and any emitted order is a market sell (A); or the
`NONE to CANDIDATE` transition fired silently (B); or the confirmed-buy
path ran, overwriting the bracket before resolving the portfolio value
(C) -/
theorem run_char (st : SymState) (I : RunInput) :
    ((run st I).1.potential_trap = st.potential_trap ∧
      (run st I).1.trap_start_time = st.trap_start_time ∧
      (run st I).1.stop_price = st.stop_price ∧
      (run st I).1.target_price = st.target_price ∧
      ((run st I).2 = .noSignal →
        (run st I).1.sell_reasons = st.sell_reasons) ∧
      (∀ o, (run st I).2 = .order o →
        o = ⟨"sell", I.position, "market", none⟩)) ∨
    (st.potential_trap = false ∧
      (run st I).1.potential_trap = true ∧
      (run st I).1.trap_start_time = some I.now ∧
      (run st I).1.stop_price = st.stop_price ∧
      (run st I).1.target_price = st.target_price ∧
      (run st I).1.sell_reasons = st.sell_reasons ∧
      (run st I).2 = .noSignal ∧
      ∃ R, I.resampled = some R ∧
        candCond (rCl R) (rVw R) R.open5 (rMa R) (rSg R) (rHi R)
          (nb I.mClose 0) (nb I.mOpen 0) I.mClose = .ok true) ∨
    (st.potential_trap = true ∧
      (run st I).1.potential_trap = true ∧
      (run st I).1.trap_start_time = st.trap_start_time ∧
      (run st I).1.sell_reasons = st.sell_reasons ∧
      ∃ R, I.resampled = some R ∧
        (run st I).1.stop_price =
          some (pyRound 2 (nb (rVw R) 0 * (98/100))) ∧
        (run st I).1.target_price =
          some (pyRound 2 (nb (rVw R) 0 * (98/100) * (11/10))) ∧
        (((run st I).2 = .noSignal ∧ resolvePV I = .failed) ∨
          ((run st I).2 = .err .configError ∧ resolvePV I = .fatal) ∨
          ((run st I).2 = .err .apiError ∧ resolvePV I = .raised) ∨
          (∃ pv, resolvePV I = .got pv ∧
            (run st I).2 = .order ⟨"buy", sizedQty pv (nb I.mClose 0),
              "limit", some (nb I.mClose 0)⟩))) := by
  by_cases h0 : I.shortable = true
  case neg =>
    left
    have hrun : run st I = (st, .noSignal) := by
      unfold run
      rw [if_neg h0]
    rw [hrun]
    simp
  case pos =>
  cases he : extractData I with
  | error e =>
    left
    have hrun : run st I = (st, .err e) := by
      unfold run
      rw [if_pos h0, he]
    rw [hrun]
    simp
  | ok tup =>
    obtain ⟨dc, dop, dav, dvw⟩ := tup
    obtain ⟨hdc, hdop⟩ := extractData_ok_inv he
    subst hdc
    subst hdop
    have hrun : run st I =
        runBody (stickyUpdate st (nb I.mClose 0) dav) I (nb I.mClose 0)
          (nb I.mOpen 0) := by
      unfold run
      rw [if_pos h0, he]
    have hA : ∀ dc2, (sellSection (stickyUpdate st (nb I.mClose 0) dav) I
        dc2).1.potential_trap = st.potential_trap ∧
        (sellSection (stickyUpdate st (nb I.mClose 0) dav) I
          dc2).1.trap_start_time = st.trap_start_time ∧
        (sellSection (stickyUpdate st (nb I.mClose 0) dav) I
          dc2).1.stop_price = st.stop_price ∧
        (sellSection (stickyUpdate st (nb I.mClose 0) dav) I
          dc2).1.target_price = st.target_price := by
      intro dc2
      obtain ⟨f1, f2, f3, f4, f5⟩ := sellSection_fields
        (stickyUpdate st (nb I.mClose 0) dav) I dc2
      exact ⟨by rw [f2, stickyUpdate_pt], by rw [f3, stickyUpdate_tst],
        by rw [f4, stickyUpdate_sp], by rw [f5, stickyUpdate_tp]⟩
    by_cases hg : I.is_buy_time = true ∧ I.position = 0 ∧
        I.open_order = false ∧
        (stickyUpdate st (nb I.mClose 0) dav).was_above_vwap = true
    case neg =>
      left
      rw [runBody_sell _ _ _ _ hg] at hrun
      rw [hrun]
      refine ⟨(hA _).1, (hA _).2.1, (hA _).2.2.1, (hA _).2.2.2, ?_, ?_⟩
      · intro hn
        rw [sellSection_noSignal_state _ _ _ hn, stickyUpdate_sr]
      · intro o ho
        exact sellSection_order_side _ _ _ o ho
    case pos =>
    obtain ⟨hg1, hg2, hg3, hg4⟩ := hg
    cases hres : I.resampled with
    | none =>
      left
      rw [runBody_nores _ _ _ _ hg1 hg2 hg3 hg4 hres] at hrun
      rw [hrun]
      simp
    | some R =>
      rw [runBody_buy _ _ _ _ R hg1 hg2 hg3 hg4 hres] at hrun
      by_cases hpt : (stickyUpdate st (nb I.mClose 0) dav).potential_trap
          = false
      case pos =>
        have hptst : st.potential_trap = false := by
          rw [stickyUpdate_pt] at hpt
          exact hpt
        cases hc : candCond (rCl R) (rVw R) R.open5 (rMa R) (rSg R) (rHi R)
            (nb I.mClose 0) (nb I.mOpen 0) I.mClose with
        | error e =>
          left
          rw [buyBranch_cand_err _ _ _ _ _ _ hpt hc] at hrun
          rw [hrun]
          simp
        | ok b =>
          cases b with
          | false =>
            left
            rw [buyBranch_cand_skip _ _ _ _ _ hpt hc] at hrun
            rw [hrun]
            refine ⟨(hA _).1, (hA _).2.1, (hA _).2.2.1, (hA _).2.2.2,
              ?_, ?_⟩
            · intro hn
              rw [sellSection_noSignal_state _ _ _ hn, stickyUpdate_sr]
            · intro o ho
              exact sellSection_order_side _ _ _ o ho
          | true =>
            right
            left
            rw [buyBranch_cand_fire _ _ _ _ _ hpt hc] at hrun
            rw [hrun]
            exact ⟨hptst, rfl, rfl, by simp, by simp, by simp, rfl,
              R, rfl, hc⟩
      case neg =>
        have hpt' : (stickyUpdate st (nb I.mClose 0) dav).potential_trap
            = true := by
          revert hpt
          cases (stickyUpdate st (nb I.mClose 0) dav).potential_trap <;>
            simp
        have hptst : st.potential_trap = true := by
          rw [stickyUpdate_pt] at hpt'
          exact hpt'
        cases ht : (stickyUpdate st (nb I.mClose 0) dav).trap_start_time
            with
        | none =>
          left
          rw [buyBranch_conf_key _ _ _ _ _ hpt' ht] at hrun
          rw [hrun]
          simp
        | some t0 =>
          cases hc : confirmEval (I.anchored t0) I.mClose with
          | error e =>
            left
            rw [buyBranch_conf_err _ _ _ _ _ t0 e hpt' ht hc] at hrun
            rw [hrun]
            simp
          | ok b =>
            cases b with
            | false =>
              left
              rw [buyBranch_conf_skip _ _ _ _ _ t0 hpt' ht hc] at hrun
              rw [hrun]
              refine ⟨(hA _).1, (hA _).2.1, (hA _).2.2.1, (hA _).2.2.2,
                ?_, ?_⟩
              · intro hn
                rw [sellSection_noSignal_state _ _ _ hn, stickyUpdate_sr]
              · intro o ho
                exact sellSection_order_side _ _ _ o ho
            | true =>
              rw [buyBranch_conf_go _ _ _ _ _ t0 hpt' ht hc] at hrun
              cases hsl : decide (olsSlope (lastN 10 (I.anchored t0)) <
                  olsSlope (lastN 10 I.mClose)) with
              | false =>
                left
                rw [hsl, afterBuy_false] at hrun
                rw [hrun]
                refine ⟨(hA _).1, (hA _).2.1, (hA _).2.2.1, (hA _).2.2.2,
                  ?_, ?_⟩
                · intro hn
                  rw [sellSection_noSignal_state _ _ _ hn, stickyUpdate_sr]
                · intro o ho
                  exact sellSection_order_side _ _ _ o ho
              | true =>
                rw [hsl] at hrun
                cases hbv : back (rVw R) 0 with
                | error e =>
                  left
                  rw [afterBuy_true_err _ _ _ _ e hbv] at hrun
                  rw [hrun]
                  simp
                | ok vlast =>
                  have hvl : vlast = nb (rVw R) 0 := (back_ok_inv hbv).2
                  subst hvl
                  right
                  right
                  cases hpv : resolvePV I with
                  | got pv =>
                    rw [afterBuy_got _ _ _ _ _ pv hbv hpv] at hrun
                    rw [hrun]
                    refine ⟨hptst, ?_, ?_, ?_, R, rfl, rfl, rfl, ?_⟩
                    · simp [bracketState, stickyUpdate_pt, hptst]
                    · simp [bracketState, stickyUpdate_tst]
                    · simp [bracketState, stickyUpdate_sr]
                    · exact Or.inr (Or.inr (Or.inr ⟨pv, rfl, rfl⟩))
                  | failed =>
                    rw [afterBuy_failed _ _ _ _ _ hbv hpv] at hrun
                    rw [hrun]
                    refine ⟨hptst, ?_, ?_, ?_, R, rfl, rfl, rfl, ?_⟩
                    · simp [bracketState, stickyUpdate_pt, hptst]
                    · simp [bracketState, stickyUpdate_tst]
                    · simp [bracketState, stickyUpdate_sr]
                    · exact Or.inl ⟨rfl, rfl⟩
                  | fatal =>
                    rw [afterBuy_fatal _ _ _ _ _ hbv hpv] at hrun
                    rw [hrun]
                    refine ⟨hptst, ?_, ?_, ?_, R, rfl, rfl, rfl, ?_⟩
                    · simp [bracketState, stickyUpdate_pt, hptst]
                    · simp [bracketState, stickyUpdate_tst]
                    · simp [bracketState, stickyUpdate_sr]
                    · exact Or.inr (Or.inl ⟨rfl, rfl⟩)
                  | raised =>
                    rw [afterBuy_raised _ _ _ _ _ hbv hpv] at hrun
                    rw [hrun]
                    refine ⟨hptst, ?_, ?_, ?_, R, rfl, rfl, rfl, ?_⟩
                    · simp [bracketState, stickyUpdate_pt, hptst]
                    · simp [bracketState, stickyUpdate_tst]
                    · simp [bracketState, stickyUpdate_sr]
                    · exact Or.inr (Or.inr (Or.inl ⟨rfl, rfl⟩))

/-! Claims.  Each claim of the specification is settled by one theorem
below; concrete scenarios used by witnesses and counterexamples follow. -/

/-- C1: with the candidate search running (shortable, buy window, no
position, no open order, `was_above_vwap` set, resampling succeeded) and
no candidate pending, the `NONE to CANDIDATE` transition fires exactly
when the conjunction `trapCandidateCond` holds on the rounded series
(three 5-minute closes below vwap, three below their opens, MACD line <
signal < 0, histogram strictly decreasing and negative over three
buckets, latest raw bar bearish, last three raw closes strictly
declining); on firing, `potential_trap` is set, `trap_start_time` is set
to the current time, and no signal is returned. -/
theorem C1_none_to_candidate (st : SymState) (I : RunInput) (R : Resampled)
    (h0 : I.shortable = true) (hb : I.is_buy_time = true)
    (hp : I.position = 0) (ho : I.open_order = false)
    (hw : st.was_above_vwap = true) (hpt : st.potential_trap = false)
    (hr : I.resampled = some R)
    (l1 : 3 ≤ R.close5.length) (l2 : 3 ≤ R.vwap5.length)
    (l3 : 3 ≤ R.open5.length) (l4 : 1 ≤ R.macd.length)
    (l5 : 1 ≤ R.macdSig.length) (l6 : 3 ≤ R.macdHist.length)
    (l7 : 3 ≤ I.mClose.length) (l8 : I.mOpen ≠ [])
    (l9 : I.mAverage ≠ []) (l10 : I.mVwap ≠ []) :
    ((run st I).1.potential_trap = true ↔
      trapCandidateCond (rCl R) (rVw R) R.open5 (rMa R) (rSg R) (rHi R)
        (nb I.mClose 0) (nb I.mOpen 0) I.mClose) ∧
    (trapCandidateCond (rCl R) (rVw R) R.open5 (rMa R) (rSg R) (rHi R)
        (nb I.mClose 0) (nb I.mOpen 0) I.mClose →
      (run st I).1.trap_start_time = some I.now ∧
        (run st I).2 = .noSignal) := by
  have hmc : I.mClose ≠ [] := by
    intro h
    rw [h] at l7
    simp at l7
  rw [run_eq_runBody st I h0 hmc l8 l9 l10]
  rw [runBody_buy _ _ _ _ R hb hp ho (stickyUpdate_wav st _ _ hw) hr]
  have hcc := candCond_eq (rCl R) (rVw R) R.open5 (rMa R) (rSg R) (rHi R)
    (nb I.mClose 0) (nb I.mOpen 0) I.mClose
    (by simpa [rCl] using l1) (by simpa [rVw] using l2) l3
    (by simpa [rMa] using l4) (by simpa [rSg] using l5)
    (by simpa [rHi] using l6) l7
  have hpt1 : (stickyUpdate st (nb I.mClose 0) (nb I.mAverage 0)).potential_trap
      = false := by rw [stickyUpdate_pt, hpt]
  by_cases hcond : trapCandidateCond (rCl R) (rVw R) R.open5 (rMa R) (rSg R)
      (rHi R) (nb I.mClose 0) (nb I.mOpen 0) I.mClose
  · rw [buyBranch_cand_fire _ _ _ _ _ hpt1 (by rw [hcc]; simp [hcond])]
    exact ⟨⟨fun _ => hcond, fun _ => rfl⟩, fun _ => ⟨rfl, rfl⟩⟩
  · rw [buyBranch_cand_skip _ _ _ _ _ hpt1 (by rw [hcc]; simp [hcond])]
    refine ⟨?_, fun h => absurd h hcond⟩
    rw [(sellSection_fields _ _ _).2.1, stickyUpdate_pt, hpt]
    simp [hcond]

/-- concrete resampled data for the C1 witness -/
def c1R : Resampled :=
  ⟨[1, 1, 1], [3, 3, 3], [2, 2, 2], [-2], [-1], [-1, -2, -3]⟩

/-- concrete state for the C1 witness -/
def c1St : SymState := ⟨true, false, none, none, none, none⟩

/-- concrete input for the C1 witness -/
def c1In : RunInput :=
  ⟨true, 0, [3, 2, 1], [5], [1], [1], [], 7, true, false, false, none,
    some c1R, fun _ => [], none, none⟩

theorem C1_witness :
    (run c1St c1In).1.potential_trap = true ∧
      (run c1St c1In).2 = .noSignal := by
  have p1 : pyRound 3 (1:ℚ) = 1 := by
    rw [show (1:ℚ) = ((1:ℤ):ℚ) by norm_num, pyRound_intCast]
  have p2 : pyRound 3 (2:ℚ) = 2 := by
    rw [show (2:ℚ) = ((2:ℤ):ℚ) by norm_num, pyRound_intCast]
  have pm1 : pyRound 3 (-1:ℚ) = -1 := by
    rw [show (-1:ℚ) = ((-1:ℤ):ℚ) by norm_num, pyRound_intCast]
  have pm2 : pyRound 3 (-2:ℚ) = -2 := by
    rw [show (-2:ℚ) = ((-2:ℤ):ℚ) by norm_num, pyRound_intCast]
  have pm3 : pyRound 3 (-3:ℚ) = -3 := by
    rw [show (-3:ℚ) = ((-3:ℤ):ℚ) by norm_num, pyRound_intCast]
  have hcond : trapCandidateCond (rCl c1R) (rVw c1R) c1R.open5 (rMa c1R)
      (rSg c1R) (rHi c1R) (nb c1In.mClose 0) (nb c1In.mOpen 0)
      c1In.mClose := by
    simp only [rCl, rVw, rMa, rSg, rHi, c1R, c1In, List.map_cons,
      List.map_nil, p1, p2, pm1, pm2, pm3]
    norm_num [trapCandidateCond, nb]
  have h := C1_none_to_candidate c1St c1In c1R rfl rfl rfl rfl rfl rfl rfl
    (by norm_num [c1R]) (by norm_num [c1R]) (by norm_num [c1R])
    (by norm_num [c1R]) (by norm_num [c1R]) (by norm_num [c1R])
    (by norm_num [c1In]) (by simp [c1In]) (by simp [c1In])
    (by simp [c1In])
  exact ⟨h.1.mpr hcond, (h.2 hcond).2⟩

/-- C8 (amended): with fewer than three resampled 5-minute buckets the
`NONE to CANDIDATE` transition never fires, regardless of every other
input; but the invocation is not always a silent no-signal — the series
indexing can raise (see the counterexample). -/
theorem C8_no_fire_insufficient_history (st : SymState) (I : RunInput)
    (R : Resampled) (hr : I.resampled = some R)
    (hlen : R.close5.length < 3) :
    (run st I).1.potential_trap = st.potential_trap := by
  rcases run_char st I with hA | hB | hC
  · exact hA.1
  · exfalso
    obtain ⟨R2, hr2, hc⟩ := hB.2.2.2.2.2.2.2
    rw [hr] at hr2
    cases hr2
    exact candCond_not_true (by simpa [rCl] using hlen) hc
  · rw [hC.2.1, hC.1]

/-- resampled data with only two buckets for the C8 scenario -/
def c8R : Resampled := ⟨[1, 1], [9, 9], [10, 10], [], [], []⟩

/-- input with two 5-minute buckets whose closes sit below the vwap: the
candidate search reaches `close[-3]` and raises -/
def c8In : RunInput :=
  ⟨true, 0, [3, 2, 1], [5], [1], [1], [], 7, true, false, false, none,
    some c8R, fun _ => [], none, none⟩

/-- C8 counterexample: with two resampled buckets the invocation is not
a silent no-signal — it raises an out-of-range indexing error. -/
theorem C8_counterexample : (run c1St c8In).2 = .err .indexError := by
  have p1 : pyRound 3 (1:ℚ) = 1 := by
    rw [show (1:ℚ) = ((1:ℤ):ℚ) by norm_num, pyRound_intCast]
  have p10 : pyRound 3 (10:ℚ) = 10 := by
    rw [show (10:ℚ) = ((10:ℤ):ℚ) by norm_num, pyRound_intCast]
  have hcl : rCl c8R = [1, 1] := by
    simp [rCl, c8R, p1]
  have hvw : rVw c8R = [10, 10] := by
    simp [rVw, c8R, p10]
  have hc : candCond (rCl c8R) (rVw c8R) c8R.open5 (rMa c8R) (rSg c8R)
      (rHi c8R) (nb c8In.mClose 0) (nb c8In.mOpen 0) c8In.mClose =
      .error .indexError := by
    rw [hcl, hvw]
    unfold candCond
    rw [show back [(1:ℚ), 1] 0 = .ok 1 from rfl,
      show back [(1:ℚ), 1] 1 = .ok 1 from rfl,
      show back [(1:ℚ), 1] 2 = .error .indexError from rfl,
      show back [(10:ℚ), 10] 0 = .ok 10 from rfl,
      show back [(10:ℚ), 10] 1 = .ok 10 from rfl]
    rw [show pLt (Except.ok (1:ℚ)) (.ok 10) = .ok true by
      simp [pLt]]
    rw [show pLt (Except.error (RErr.indexError)) (back [(10:ℚ), 10] 2) =
      .error .indexError from rfl]
    simp [pAnd]
  rw [run_eq_runBody c1St c8In rfl (by simp [c8In]) (by simp [c8In])
    (by simp [c8In]) (by simp [c8In])]
  rw [runBody_buy _ _ _ _ c8R rfl rfl rfl
    (stickyUpdate_wav _ _ _ rfl) rfl]
  rw [buyBranch_cand_err _ _ _ _ _ _ (by rw [stickyUpdate_pt]; rfl) hc]

/-- C7 (amended): a buy intent never resets the trap state: whenever a
buy order is emitted the candidate was pending and remains pending
(`potential_trap` stays true) — the strategy contains no transition back
to `NONE`. -/
theorem C7_trap_state_after_buy (st : SymState) (I : RunInput)
    (o : OrderIntent) (h : (run st I).2 = .order o)
    (hs : o.side = "buy") :
    st.potential_trap = true ∧ (run st I).1.potential_trap = true := by
  rcases run_char st I with hA | hB | hC
  · exfalso
    have := hA.2.2.2.2.2 o h
    rw [this] at hs
    simp at hs
  · exfalso
    rw [hB.2.2.2.2.2.2.1] at h
    exact absurd h (by simp)
  · exact ⟨hC.1, hC.2.1⟩

/-! A reusable confirmed-candidate buy scenario: a pending candidate,
eleven anchored-vwap points all zero, minute closes ending with two
positive rising values `a`, `b`, and a single resampled vwap bucket
`w`. -/

/-- resampled data for the buy scenario: one vwap bucket `w` -/
def buyR (w : ℚ) : Resampled := ⟨[], [], [w], [], [], []⟩

/-- state with a pending candidate anchored at time 5 -/
def buySt : SymState := ⟨true, true, some 5, none, none, none⟩

/-- input for the buy scenario -/
def buyIn (w a b : ℚ) (pv : Option ℚ) (api : Option (ℕ → FetchOutcome)) :
    RunInput :=
  ⟨true, 0, [0, 0, 0, 0, 0, 0, 0, 0, 0, a, b], [1], [1], [1], [], 9,
    true, false, false, none, some (buyR w), fun _ => List.replicate 11 0,
    pv, api⟩

theorem slope_pos (a b : ℚ) (ha : 0 < a) (hb : 0 < b) :
    olsSlope (lastN 10 (List.replicate 11 (0:ℚ))) <
      olsSlope (lastN 10 [0, 0, 0, 0, 0, 0, 0, 0, 0, a, b]) := by
  have h1 : lastN 10 (List.replicate 11 (0:ℚ)) =
      [0, 0, 0, 0, 0, 0, 0, 0, 0, 0] := rfl
  have h2 : lastN 10 [0, 0, 0, 0, 0, 0, 0, 0, 0, a, b] =
      [0, 0, 0, 0, 0, 0, 0, 0, a, b] := rfl
  have hz : olsSlope [0, 0, 0, 0, 0, 0, 0, 0, 0, (0:ℚ)] = 0 := by
    unfold olsSlope
    norm_num [List.range_succ]
  have hax : olsSlope [0, 0, 0, 0, 0, 0, 0, 0, a, b] =
      (35 * a + 45 * b) / 825 := by
    unfold olsSlope
    norm_num [List.range_succ]
    ring
  rw [h1, h2, hz, hax]
  apply div_pos
  · linarith
  · norm_num

/-- the buy scenario reaches the sizing step with `to_buy` set -/
theorem buy_reach (w a b : ℚ) (pv : Option ℚ)
    (api : Option (ℕ → FetchOutcome)) (ha : (0:ℚ) < a) (hb : (0:ℚ) < b) :
    run buySt (buyIn w a b pv api) =
      afterBuy (stickyUpdate buySt b 1) (buyIn w a b pv api) b true
        [pyRound 3 w] := by
  have e1 : nb (buyIn w a b pv api).mClose 0 = b := rfl
  have e2 : nb (buyIn w a b pv api).mOpen 0 = 1 := rfl
  have e3 : nb (buyIn w a b pv api).mAverage 0 = 1 := rfl
  rw [run_eq_runBody buySt (buyIn w a b pv api) rfl (by simp [buyIn])
    (by simp [buyIn]) (by simp [buyIn]) (by simp [buyIn])]
  rw [e1, e2, e3]
  rw [runBody_buy _ _ _ _ (buyR w) rfl rfl rfl
    (stickyUpdate_wav _ _ _ rfl) rfl]
  have ht : (stickyUpdate buySt b 1).trap_start_time = some 5 := by
    rw [stickyUpdate_tst]
    rfl
  have hconf : confirmEval ((buyIn w a b pv api).anchored 5)
      (buyIn w a b pv api).mClose = .ok true := by
    rw [show (buyIn w a b pv api).anchored 5 = List.replicate 11 0 from
      rfl]
    rw [confirmEval_eq _ _ (by simp [buyIn])]
    have hP : (10 < (List.replicate 11 (0:ℚ)).length ∧
        (nb (List.replicate 11 (0:ℚ)) 0 < nb (buyIn w a b pv api).mClose 0 ∧
          nb (List.replicate 11 (0:ℚ)) 1 <
            nb (buyIn w a b pv api).mClose 1)) :=
      ⟨by norm_num,
        by rw [show nb (List.replicate 11 (0:ℚ)) 0 = 0 from rfl, e1]
           exact hb,
        by rw [show nb (List.replicate 11 (0:ℚ)) 1 = 0 from rfl,
             show nb (buyIn w a b pv api).mClose 1 = a from rfl]
           exact ha⟩
    simp only [Except.ok.injEq]
    rw [decide_eq_true_eq]
    exact hP
  rw [buyBranch_conf_go _ _ _ _ _ 5 (by rw [stickyUpdate_pt]; rfl) ht
    hconf]
  have hsl : decide (olsSlope (lastN 10 ((buyIn w a b pv api).anchored 5))
      < olsSlope (lastN 10 (buyIn w a b pv api).mClose)) = true := by
    rw [decide_eq_true_eq]
    rw [show (buyIn w a b pv api).anchored 5 = List.replicate 11 0 from
      rfl, show (buyIn w a b pv api).mClose =
        [0, 0, 0, 0, 0, 0, 0, 0, 0, a, b] from rfl]
    exact slope_pos a b ha hb
  rw [hsl]
  rw [show rVw (buyR w) = [pyRound 3 w] from rfl]

theorem truncQ_intCast (z : ℤ) : truncQ ((z : ℚ)) = z := by
  unfold truncQ
  split
  · exact_mod_cast Int.floor_intCast z
  · rw [← Int.cast_neg, Int.floor_intCast]
    omega

theorem truncQ_nonneg (q : ℚ) (h : 0 ≤ q) : truncQ q = ⌊q⌋ := by
  unfold truncQ
  rw [if_pos h]

theorem sizedQty_eq (pv dc : ℚ) (h1 : 0 ≤ pv) (h2 : 0 < dc) :
    sizedQty pv dc = max 1 ⌊pv * (2/100) / dc⌋ := by
  have hq : 0 ≤ pv * (2/100) / dc := by positivity
  have hf : 0 ≤ ⌊pv * (2/100) / dc⌋ := Int.floor_nonneg.mpr hq
  unfold sizedQty
  rw [truncQ_nonneg _ hq]
  split
  case isTrue h => omega
  case isFalse h => omega

theorem rnd_bounds (y : ℚ) :
    y - 1/2 ≤ (rnd y : ℚ) ∧ (rnd y : ℚ) ≤ y + 1/2 := by
  have h1 : (⌊y⌋ : ℚ) ≤ y := Int.floor_le y
  have h2 : y < ⌊y⌋ + 1 := Int.lt_floor_add_one y
  unfold rnd
  split_ifs with ha hb hc <;> constructor <;> push_cast <;> linarith

theorem rnd_eq_of_lt_half (y : ℚ) (f : ℤ) (h1 : (f : ℚ) ≤ y)
    (h2 : y - f < 1/2) : rnd y = f := by
  have hf : ⌊y⌋ = f := Int.floor_eq_iff.mpr ⟨h1, by push_cast; linarith⟩
  unfold rnd
  rw [hf, if_pos (by push_cast; linarith)]

theorem rnd_eq_of_half_lt (y : ℚ) (f : ℤ) (h1 : (f : ℚ) ≤ y)
    (h2 : (1:ℚ)/2 < y - f) (h3 : y < f + 1) : rnd y = f + 1 := by
  have hf : ⌊y⌋ = f := Int.floor_eq_iff.mpr ⟨h1, by push_cast; linarith⟩
  unfold rnd
  rw [hf, if_neg (by push_cast; linarith), if_pos (by push_cast; linarith)]

/-- the generic bracket-ordering fact: the two-decimal rounded stop and
target are strictly ordered and positive as soon as the (rounded) vwap
value exceeds 5/49 of a dollar -/
theorem bracket_order (w : ℚ) (hw : 5/49 < w) :
    pyRound 2 (w * (98/100)) < pyRound 2 (w * (98/100) * (11/10)) ∧
      0 < pyRound 2 (w * (98/100)) := by
  obtain ⟨l1, u1⟩ := rnd_bounds (w * (98/100) * 10 ^ 2)
  obtain ⟨l2, u2⟩ := rnd_bounds (w * (98/100) * (11/10) * 10 ^ 2)
  have h100 : ((10:ℚ) ^ 2) = 100 := by norm_num
  rw [h100] at l1 u1 l2 u2
  unfold pyRound
  rw [h100]
  constructor
  · have hlt : (rnd (w * (98/100) * 100) : ℚ) <
        (rnd (w * (98/100) * (11/10) * 100) : ℚ) := by linarith
    exact (div_lt_div_right (by norm_num)).mpr hlt
  · apply div_pos
    · linarith
    · norm_num

/-- C4 (amended): whenever a buy is emitted the stored stop is
`round(0.98 * vwap, 2)` and the stored target `round(1.078 * vwap, 2)`
for the rounded latest vwap value; `target > stop > 0` holds whenever
that vwap value exceeds 5/49 (it can fail for smaller prices: see the
counterexample where stop = target). -/
theorem C4_bracket (st : SymState) (I : RunInput) (o : OrderIntent)
    (R : Resampled) (h : (run st I).2 = .order o) (hs : o.side = "buy")
    (hr : I.resampled = some R) :
    (run st I).1.stop_price =
      some (pyRound 2 (nb (rVw R) 0 * (98/100))) ∧
    (run st I).1.target_price =
      some (pyRound 2 (nb (rVw R) 0 * (98/100) * (11/10))) ∧
    (5/49 < nb (rVw R) 0 →
      pyRound 2 (nb (rVw R) 0 * (98/100)) <
        pyRound 2 (nb (rVw R) 0 * (98/100) * (11/10)) ∧
      0 < pyRound 2 (nb (rVw R) 0 * (98/100))) := by
  rcases run_char st I with hA | hB | hC
  · exfalso
    have := hA.2.2.2.2.2 o h
    rw [this] at hs
    simp at hs
  · exfalso
    rw [hB.2.2.2.2.2.2.1] at h
    exact absurd h (by simp)
  · obtain ⟨_, _, _, _, R2, hr2, hstop, htarget, _⟩ := hC
    rw [hr] at hr2
    cases hr2
    exact ⟨hstop, htarget, fun hw => bracket_order _ hw⟩

/-- the buy scenario with a supplied portfolio value runs to a buy
order -/
theorem buy_run_eval_gen (w a b pvv : ℚ) (ha : (0:ℚ) < a)
    (hb : (0:ℚ) < b) :
    run buySt (buyIn w a b (some pvv) none) =
      (bracketState (stickyUpdate buySt b 1) (pyRound 3 w),
        .order ⟨"buy", sizedQty pvv b, "limit", some b⟩) := by
  have h := buy_reach w a b (some pvv) none ha hb
  rw [afterBuy_got (stickyUpdate buySt b 1) (buyIn w a b (some pvv) none)
    b [pyRound 3 w] (pyRound 3 w) pvv rfl rfl] at h
  exact h

theorem sizedQty_100000_2 : sizedQty 100000 2 = 1000 := by
  unfold sizedQty
  rw [show (100000:ℚ) * (2/100) / 2 = ((1000:ℤ):ℚ) by norm_num,
    truncQ_intCast]
  norm_num

/-- C7 counterexample: a buy order is emitted while `potential_trap`
remains true afterwards — the state never transitions back toward
`NONE` on a buy. -/
theorem C7_counterexample :
    (run buySt (buyIn 10 1 2 (some 100000) none)).2 =
      .order ⟨"buy", 1000, "limit", some 2⟩ ∧
    (run buySt (buyIn 10 1 2 (some 100000) none)).1.potential_trap =
      true := by
  rw [buy_run_eval_gen 10 1 2 100000 one_pos (by norm_num)]
  refine ⟨?_, ?_⟩
  · rw [sizedQty_100000_2]
  · simp [bracketState, stickyUpdate_pt]
    rfl

theorem C7_witness :
    buySt.potential_trap = true ∧
      (run buySt (buyIn 10 1 2 (some 100000) none)).1.potential_trap =
        true :=
  C7_trap_state_after_buy buySt (buyIn 10 1 2 (some 100000) none)
    ⟨"buy", sizedQty 100000 2, "limit", some 2⟩
    (by rw [buy_run_eval_gen 10 1 2 100000 one_pos (by norm_num)]) rfl

/-- C8 witness for the amended theorem, at the concrete two-bucket
scenario -/
theorem C8_witness : (run c1St c8In).1.potential_trap = false := by
  have h := C8_no_fire_insufficient_history c1St c8In c8R rfl
    (by norm_num [c8R])
  rw [h]
  rfl

theorem bracketState_stop (st : SymState) (vl : ℚ) :
    (bracketState st vl).stop_price = some (pyRound 2 (vl * (98/100))) :=
  rfl

theorem bracketState_target (st : SymState) (vl : ℚ) :
    (bracketState st vl).target_price =
      some (pyRound 2 (vl * (98/100) * (11/10))) := rfl

/-- evaluation of `pyRound 3` at the C4 counterexample price -/
theorem pyRound3_c4 : pyRound 3 ((1:ℚ)/20) = 1/20 := by
  unfold pyRound
  rw [show ((1:ℚ)/20) * 10 ^ 3 = ((50:ℤ):ℚ) by norm_num, rnd_intCast]
  norm_num

theorem pyRound2_c4_stop : pyRound 2 ((1/20 : ℚ) * (98/100)) = 1/20 := by
  unfold pyRound
  rw [show ((1/20:ℚ) * (98/100)) * 10 ^ 2 = 49/10 by norm_num,
    rnd_eq_of_half_lt (49/10) 4 (by norm_num) (by norm_num) (by norm_num)]
  norm_num

theorem pyRound2_c4_target :
    pyRound 2 ((1/20 : ℚ) * (98/100) * (11/10)) = 1/20 := by
  unfold pyRound
  rw [show ((1/20:ℚ) * (98/100) * (11/10)) * 10 ^ 2 = 539/100 by norm_num,
    rnd_eq_of_lt_half (539/100) 5 (by norm_num) (by norm_num)]
  norm_num

/-- C4 counterexample: with a (rounded) vwap of 0.05 a buy is emitted
whose stored stop and target coincide (both 0.05), refuting strict
bracket ordering. -/
theorem C4_counterexample :
    (run buySt (buyIn (1/20) 1 2 (some 100000) none)).2 =
      .order ⟨"buy", 1000, "limit", some 2⟩ ∧
    (run buySt (buyIn (1/20) 1 2 (some 100000) none)).1.stop_price =
      some (1/20) ∧
    (run buySt (buyIn (1/20) 1 2 (some 100000) none)).1.target_price =
      some (1/20) := by
  rw [buy_run_eval_gen (1/20) 1 2 100000 one_pos (by norm_num)]
  refine ⟨by rw [sizedQty_100000_2], ?_, ?_⟩
  · rw [bracketState_stop, pyRound3_c4, pyRound2_c4_stop]
  · rw [bracketState_target, pyRound3_c4, pyRound2_c4_target]

theorem pyRound3_ten : pyRound 3 (10:ℚ) = 10 := by
  rw [show (10:ℚ) = ((10:ℤ):ℚ) by norm_num, pyRound_intCast]

theorem C4_witness :
    (run buySt (buyIn 10 1 2 (some 100000) none)).1.stop_price =
      some (pyRound 2 (nb (rVw (buyR 10)) 0 * (98/100))) ∧
    pyRound 2 (nb (rVw (buyR 10)) 0 * (98/100)) <
      pyRound 2 (nb (rVw (buyR 10)) 0 * (98/100) * (11/10)) ∧
    0 < pyRound 2 (nb (rVw (buyR 10)) 0 * (98/100)) := by
  have hw : (5/49 : ℚ) < nb (rVw (buyR 10)) 0 := by
    rw [show nb (rVw (buyR 10)) 0 = pyRound 3 10 from rfl, pyRound3_ten]
    norm_num
  have h := C4_bracket buySt (buyIn 10 1 2 (some 100000) none)
    ⟨"buy", sizedQty 100000 2, "limit", some 2⟩ (buyR 10)
    (by rw [buy_run_eval_gen 10 1 2 100000 one_pos (by norm_num)]) rfl rfl
  exact ⟨h.1, (h.2.2 hw).1, (h.2.2 hw).2⟩

/-- C5: whenever a buy is emitted, with `pv` the portfolio value in
effect (supplied or fetched), the quantity is
`floor(pv * 0.02 / latest_close)` floored to a minimum of one share
(for a positive close and nonnegative portfolio value). -/
theorem C5_position_sizing (st : SymState) (I : RunInput)
    (o : OrderIntent) (pv : ℚ) (h : (run st I).2 = .order o)
    (hs : o.side = "buy") (hgot : resolvePV I = .got pv)
    (hpv0 : 0 ≤ pv) (hdc : 0 < nb I.mClose 0) :
    o.qty = max 1 ⌊pv * (2/100) / nb I.mClose 0⌋ := by
  rcases run_char st I with hA | hB | hC
  · exfalso
    have := hA.2.2.2.2.2 o h
    rw [this] at hs
    simp at hs
  · exfalso
    rw [hB.2.2.2.2.2.2.1] at h
    exact absurd h (by simp)
  · obtain ⟨_, _, _, _, R2, hr2, hstop, htarget, houts⟩ := hC
    rcases houts with ⟨hn, _⟩ | ⟨hn, _⟩ | ⟨hn, _⟩ | ⟨pv2, hres, hord⟩
    · rw [hn] at h
      exact absurd h (by simp)
    · rw [hn] at h
      exact absurd h (by simp)
    · rw [hn] at h
      exact absurd h (by simp)
    · rw [hgot] at hres
      cases hres
      rw [hord] at h
      have ho : o = ⟨"buy", sizedQty pv (nb I.mClose 0), "limit",
          some (nb I.mClose 0)⟩ := by
        cases h
        rfl
      rw [ho]
      exact sizedQty_eq pv (nb I.mClose 0) hpv0 hdc

theorem C5_witness :
    (run buySt (buyIn 10 25 50 (some 100000) none)).2 =
      .order ⟨"buy", 40, "limit", some 50⟩ ∧
    (run buySt (buyIn 10 500 1000 (some 10) none)).2 =
      .order ⟨"buy", 1, "limit", some 1000⟩ := by
  have h1 := C5_position_sizing buySt (buyIn 10 25 50 (some 100000) none)
    ⟨"buy", sizedQty 100000 50, "limit", some 50⟩ 100000
    (by rw [buy_run_eval_gen 10 25 50 100000 (by norm_num) (by norm_num)])
    rfl rfl (by norm_num)
    (by rw [show nb (buyIn 10 25 50 (some 100000) none).mClose 0 = 50
      from rfl]; norm_num)
  have h2 := C5_position_sizing buySt (buyIn 10 500 1000 (some 10) none)
    ⟨"buy", sizedQty 10 1000, "limit", some 1000⟩ 10
    (by rw [buy_run_eval_gen 10 500 1000 10 (by norm_num) (by norm_num)])
    rfl rfl (by norm_num)
    (by rw [show nb (buyIn 10 500 1000 (some 10) none).mClose 0 = 1000
      from rfl]; norm_num)
  have e1 : sizedQty 100000 50 = 40 := by
    have := h1
    rw [show nb (buyIn 10 25 50 (some 100000) none).mClose 0 = 50
      from rfl] at this
    rw [show ((100000:ℚ) * (2/100) / 50) = ((40:ℤ):ℚ) by norm_num,
      Int.floor_intCast] at this
    simpa using this
  have e2 : sizedQty 10 1000 = 1 := by
    have := h2
    rw [show nb (buyIn 10 500 1000 (some 10) none).mClose 0 = 1000
      from rfl] at this
    rw [show ((10:ℚ) * (2/100) / 1000) = 1/5000 by norm_num] at this
    rw [show ⌊(1:ℚ)/5000⌋ = 0 by
      rw [Int.floor_eq_iff]
      constructor <;> norm_num] at this
    simpa using this
  constructor
  · rw [buy_run_eval_gen 10 25 50 100000 (by norm_num) (by norm_num), e1]
  · rw [buy_run_eval_gen 10 500 1000 10 (by norm_num) (by norm_num), e2]

/-! Evaluation lemmas for the sell section. -/

theorem sellSection_stopped (st : SymState) (I : RunInput) (dc sp : ℚ)
    (hs : I.is_sell_time = true) (hp : I.position ≠ 0)
    (hlu : I.last_used_strategy = some strategy_name)
    (ho : I.open_order = false) (hsp : st.stop_price = some sp)
    (hle : dc ≤ sp) :
    sellSection st I dc =
      ({ st with sell_reasons := some ["stopped"] },
        .order ⟨"sell", I.position, "market", none⟩) := by
  unfold sellSection
  rw [if_pos ⟨hs, hp⟩]
  simp only [hlu]
  rw [if_pos ⟨by trivial, ho⟩]
  simp only [hsp]
  rw [if_pos hle]

theorem sellSection_target_hit (st : SymState) (I : RunInput) (dc sp tp : ℚ)
    (hs : I.is_sell_time = true) (hp : I.position ≠ 0)
    (hlu : I.last_used_strategy = some strategy_name)
    (ho : I.open_order = false) (hsp : st.stop_price = some sp)
    (hgt : ¬(dc ≤ sp)) (htp : st.target_price = some tp)
    (hge : tp ≤ dc) :
    sellSection st I dc =
      ({ st with sell_reasons := some ["above target"] },
        .order ⟨"sell", I.position, "market", none⟩) := by
  unfold sellSection
  rw [if_pos ⟨hs, hp⟩]
  simp only [hlu]
  rw [if_pos ⟨by trivial, ho⟩]
  simp only [hsp]
  rw [if_neg hgt]
  simp only [htp]
  rw [if_pos hge]

theorem sellSection_between (st : SymState) (I : RunInput) (dc sp tp : ℚ)
    (hs : I.is_sell_time = true) (hp : I.position ≠ 0)
    (hlu : I.last_used_strategy = some strategy_name)
    (ho : I.open_order = false) (hsp : st.stop_price = some sp)
    (hgt : ¬(dc ≤ sp)) (htp : st.target_price = some tp)
    (hlt : ¬(tp ≤ dc)) :
    sellSection st I dc = (st, .noSignal) := by
  unfold sellSection
  rw [if_pos ⟨hs, hp⟩]
  simp only [hlu]
  rw [if_pos ⟨by trivial, ho⟩]
  simp only [hsp]
  rw [if_neg hgt]
  simp only [htp]
  rw [if_neg hlt]

theorem sellSection_lu_key (st : SymState) (I : RunInput) (dc : ℚ)
    (hs : I.is_sell_time = true) (hp : I.position ≠ 0)
    (hlu : I.last_used_strategy = none) :
    sellSection st I dc = (st, .err .keyError) := by
  unfold sellSection
  rw [if_pos ⟨hs, hp⟩]
  simp only [hlu]

theorem sellSection_stop_key (st : SymState) (I : RunInput) (dc : ℚ)
    (hs : I.is_sell_time = true) (hp : I.position ≠ 0)
    (hlu : I.last_used_strategy = some strategy_name)
    (ho : I.open_order = false) (hsp : st.stop_price = none) :
    sellSection st I dc = (st, .err .keyError) := by
  unfold sellSection
  rw [if_pos ⟨hs, hp⟩]
  simp only [hlu]
  rw [if_pos ⟨by trivial, ho⟩]
  simp only [hsp]

theorem sellSection_target_key (st : SymState) (I : RunInput) (dc sp : ℚ)
    (hs : I.is_sell_time = true) (hp : I.position ≠ 0)
    (hlu : I.last_used_strategy = some strategy_name)
    (ho : I.open_order = false) (hsp : st.stop_price = some sp)
    (hgt : ¬(dc ≤ sp)) (htp : st.target_price = none) :
    sellSection st I dc = (st, .err .keyError) := by
  unfold sellSection
  rw [if_pos ⟨hs, hp⟩]
  simp only [hlu]
  rw [if_pos ⟨by trivial, ho⟩]
  simp only [hsp]
  rw [if_neg hgt]
  simp only [htp]

theorem sellSection_pos0 (st : SymState) (I : RunInput) (dc : ℚ)
    (hp : I.position = 0) : sellSection st I dc = (st, .noSignal) := by
  unfold sellSection
  rw [if_neg (by simp [hp])]

/-- the nonzero-position invocation reduces to the sell section -/
theorem run_eq_sell (st : SymState) (I : RunInput) (h0 : I.shortable = true)
    (hp : I.position ≠ 0) (h1 : I.mClose ≠ []) (h2 : I.mOpen ≠ [])
    (h3 : I.mAverage ≠ []) (h4 : I.mVwap ≠ []) :
    run st I =
      sellSection (stickyUpdate st (nb I.mClose 0) (nb I.mAverage 0)) I
        (nb I.mClose 0) := by
  rw [run_eq_runBody st I h0 h1 h2 h3 h4]
  exact runBody_sell _ _ _ _ (by
    intro hg
    exact hp hg.2.1)

/-- C3: on the sell path with a stored bracket, a close at or below the
stop emits a full-size market sell with reason `stopped` (regardless of
the target — the stop test runs first); otherwise a close at or above
the target emits a full-size market sell with reason `above target`;
strictly between the two, no signal. -/
theorem C3_exit_logic (st : SymState) (I : RunInput) (sp tp : ℚ)
    (h0 : I.shortable = true) (hs : I.is_sell_time = true)
    (hp : I.position ≠ 0)
    (hlu : I.last_used_strategy = some strategy_name)
    (ho : I.open_order = false) (hsp : st.stop_price = some sp)
    (htp : st.target_price = some tp) (h1 : I.mClose ≠ [])
    (h2 : I.mOpen ≠ []) (h3 : I.mAverage ≠ []) (h4 : I.mVwap ≠ []) :
    (nb I.mClose 0 ≤ sp →
      (run st I).2 = .order ⟨"sell", I.position, "market", none⟩ ∧
        (run st I).1.sell_reasons = some ["stopped"]) ∧
    (sp < nb I.mClose 0 → tp ≤ nb I.mClose 0 →
      (run st I).2 = .order ⟨"sell", I.position, "market", none⟩ ∧
        (run st I).1.sell_reasons = some ["above target"]) ∧
    (sp < nb I.mClose 0 → nb I.mClose 0 < tp →
      (run st I).2 = .noSignal) := by
  have hrun := run_eq_sell st I h0 hp h1 h2 h3 h4
  have hsp1 : (stickyUpdate st (nb I.mClose 0)
      (nb I.mAverage 0)).stop_price = some sp := by
    rw [stickyUpdate_sp, hsp]
  have htp1 : (stickyUpdate st (nb I.mClose 0)
      (nb I.mAverage 0)).target_price = some tp := by
    rw [stickyUpdate_tp, htp]
  refine ⟨?_, ?_, ?_⟩
  · intro hle
    rw [hrun, sellSection_stopped _ _ _ sp hs hp hlu ho hsp1 hle]
    exact ⟨rfl, rfl⟩
  · intro hgt hge
    rw [hrun, sellSection_target_hit _ _ _ sp tp hs hp hlu ho hsp1
      (by exact fun hcon => absurd hcon (not_le.mpr hgt)) htp1 hge]
    exact ⟨rfl, rfl⟩
  · intro hgt hlt
    rw [hrun, sellSection_between _ _ _ sp tp hs hp hlu ho hsp1
      (by exact fun hcon => absurd hcon (not_le.mpr hgt)) htp1
      (by exact fun hcon => absurd hcon (not_le.mpr hlt))]

/-- state with the spec's example bracket: stop 9, target 11 -/
def c3St : SymState := ⟨true, false, none, some 9, some 11, none⟩

/-- open-position input whose latest close is the parameter -/
def c3In (c : ℚ) : RunInput :=
  ⟨true, 3, [c], [1], [1], [1], [], 7, false, true, false,
    some strategy_name, none, fun _ => [], none, none⟩

theorem C3_witness :
    ((run c3St (c3In (17/2))).2 =
        .order ⟨"sell", 3, "market", none⟩ ∧
      (run c3St (c3In (17/2))).1.sell_reasons = some ["stopped"]) ∧
    ((run c3St (c3In (23/2))).2 =
        .order ⟨"sell", 3, "market", none⟩ ∧
      (run c3St (c3In (23/2))).1.sell_reasons =
        some ["above target"]) ∧
    (run c3St (c3In 10)).2 = .noSignal := by
  have h1 := C3_exit_logic c3St (c3In (17/2)) 9 11 rfl rfl
    (by norm_num [c3In]) rfl rfl rfl rfl (by simp [c3In])
    (by simp [c3In]) (by simp [c3In]) (by simp [c3In])
  have h2 := C3_exit_logic c3St (c3In (23/2)) 9 11 rfl rfl
    (by norm_num [c3In]) rfl rfl rfl rfl (by simp [c3In])
    (by simp [c3In]) (by simp [c3In]) (by simp [c3In])
  have h3 := C3_exit_logic c3St (c3In 10) 9 11 rfl rfl
    (by norm_num [c3In]) rfl rfl rfl rfl (by simp [c3In])
    (by simp [c3In]) (by simp [c3In]) (by simp [c3In])
  have e1 : nb (c3In (17/2)).mClose 0 = 17/2 := rfl
  have e2 : nb (c3In (23/2)).mClose 0 = 23/2 := rfl
  have e3 : nb (c3In 10).mClose 0 = 10 := rfl
  refine ⟨h1.1 (by rw [e1]; norm_num), ?_, ?_⟩
  · exact h2.2.1 (by rw [e2]; norm_num) (by rw [e2]; norm_num)
  · exact h3.2.2 (by rw [e3]; norm_num) (by rw [e3]; norm_num)

/-- C10 (amended): on the sell path the dictionary lookups are
unguarded, but they are reached in order: a missing
`last_used_strategy` entry always raises; a missing `stop_prices` entry
raises only once the strategy matches and no order is open; and a
missing `target_prices` entry raises only when additionally the close
exceeds the stored stop — at or below the stop the sell fires without
ever consulting `target_prices` (see the counterexample). -/
theorem C10_unguarded_lookups (st : SymState) (I : RunInput)
    (h0 : I.shortable = true) (hs : I.is_sell_time = true)
    (hp : I.position ≠ 0) (h1 : I.mClose ≠ []) (h2 : I.mOpen ≠ [])
    (h3 : I.mAverage ≠ []) (h4 : I.mVwap ≠ []) :
    (I.last_used_strategy = none → (run st I).2 = .err .keyError) ∧
    (I.last_used_strategy = some strategy_name → I.open_order = false →
      st.stop_price = none → (run st I).2 = .err .keyError) ∧
    (∀ sp, I.last_used_strategy = some strategy_name →
      I.open_order = false → st.stop_price = some sp →
      sp < nb I.mClose 0 → st.target_price = none →
      (run st I).2 = .err .keyError) := by
  have hrun := run_eq_sell st I h0 hp h1 h2 h3 h4
  refine ⟨?_, ?_, ?_⟩
  · intro hlu
    rw [hrun, sellSection_lu_key _ _ _ hs hp hlu]
  · intro hlu ho hsp
    rw [hrun, sellSection_stop_key _ _ _ hs hp hlu ho
      (by rw [stickyUpdate_sp, hsp])]
  · intro sp hlu ho hsp hgt htp
    rw [hrun, sellSection_target_key _ _ _ sp hs hp hlu ho
      (by rw [stickyUpdate_sp, hsp])
      (fun hcon => absurd hcon (not_le.mpr hgt))
      (by rw [stickyUpdate_tp, htp])]

/-- state with a stored stop of 9 but no stored target -/
def c10St : SymState := ⟨true, false, none, some 9, none, none⟩

/-- C10 counterexample: with the `target_prices` entry missing and the
close below the stop, the invocation emits the sell instead of raising
a lookup error. -/
theorem C10_counterexample :
    (run c10St (c3In 8)).2 = .order ⟨"sell", 3, "market", none⟩ := by
  rw [run_eq_sell c10St (c3In 8) rfl (by norm_num [c3In])
    (by simp [c3In]) (by simp [c3In]) (by simp [c3In]) (by simp [c3In])]
  rw [sellSection_stopped _ _ _ 9 rfl (by norm_num [c3In]) rfl rfl
    (by rw [stickyUpdate_sp]; rfl)
    (by rw [show nb (c3In 8).mClose 0 = 8 from rfl]; norm_num)]
  rfl

/-- state with no stored stop price -/
def c10bSt : SymState := ⟨true, false, none, none, none, none⟩

/-- input with no `last_used_strategy` entry -/
def c10bIn : RunInput :=
  ⟨true, 3, [8], [1], [1], [1], [], 7, false, true, false, none, none,
    fun _ => [], none, none⟩

theorem C10_witness :
    (run c10bSt c10bIn).2 = .err .keyError ∧
      (run c10bSt (c3In 8)).2 = .err .keyError ∧
      (run c10St (c3In 10)).2 = .err .keyError := by
  have h1 := C10_unguarded_lookups c10bSt c10bIn rfl rfl
    (by norm_num [c10bIn]) (by simp [c10bIn]) (by simp [c10bIn])
    (by simp [c10bIn]) (by simp [c10bIn])
  have h2 := C10_unguarded_lookups c10bSt (c3In 8) rfl rfl
    (by norm_num [c3In]) (by simp [c3In]) (by simp [c3In])
    (by simp [c3In]) (by simp [c3In])
  have h3 := C10_unguarded_lookups c10St (c3In 10) rfl rfl
    (by norm_num [c3In]) (by simp [c3In]) (by simp [c3In])
    (by simp [c3In]) (by simp [c3In])
  refine ⟨h1.1 rfl, h2.2.1 rfl rfl rfl, ?_⟩
  exact h3.2.2 9 rfl rfl rfl
    (by rw [show nb (c3In 10).mClose 0 = 10 from rfl]; norm_num) rfl

/-- C2: with a candidate pending, a buy can be decided only when the
anchored vwap holds more than ten points, the last two raw minute closes
sit above it at the same offsets, and the trailing-ten-point slope of the
closes strictly exceeds that of the anchored vwap; when any of these
fails the invocation abstains and the candidate stays pending with its
state untouched (no demotion to `NONE`). -/
theorem C2_confirmation (st : SymState) (I : RunInput) (R : Resampled)
    (t0 : ℕ) (h0 : I.shortable = true) (hb : I.is_buy_time = true)
    (hp : I.position = 0) (ho : I.open_order = false)
    (hw : st.was_above_vwap = true) (hpt : st.potential_trap = true)
    (ht : st.trap_start_time = some t0) (hr : I.resampled = some R)
    (l7 : 2 ≤ I.mClose.length) (l8 : I.mOpen ≠ []) (l9 : I.mAverage ≠ [])
    (l10 : I.mVwap ≠ []) :
    (∀ o, (run st I).2 = .order o →
      (10 < (I.anchored t0).length ∧
        nb (I.anchored t0) 0 < nb I.mClose 0 ∧
        nb (I.anchored t0) 1 < nb I.mClose 1 ∧
        olsSlope (lastN 10 (I.anchored t0)) <
          olsSlope (lastN 10 I.mClose))) ∧
    (¬(10 < (I.anchored t0).length ∧
        nb (I.anchored t0) 0 < nb I.mClose 0 ∧
        nb (I.anchored t0) 1 < nb I.mClose 1 ∧
        olsSlope (lastN 10 (I.anchored t0)) <
          olsSlope (lastN 10 I.mClose)) →
      (run st I).2 = .noSignal ∧
        (run st I).1.potential_trap = true ∧
        (run st I).1.trap_start_time = some t0 ∧
        (run st I).1.stop_price = st.stop_price ∧
        (run st I).1.target_price = st.target_price) := by
  have hmc : I.mClose ≠ [] := by
    intro hh
    rw [hh] at l7
    simp at l7
  have hrun0 : run st I =
      buyBranch (stickyUpdate st (nb I.mClose 0) (nb I.mAverage 0)) I
        (nb I.mClose 0) (nb I.mOpen 0) R := by
    rw [run_eq_runBody st I h0 hmc l8 l9 l10,
      runBody_buy _ _ _ _ R hb hp ho (stickyUpdate_wav st _ _ hw) hr]
  have hpt1 : (stickyUpdate st (nb I.mClose 0)
      (nb I.mAverage 0)).potential_trap = true := by
    rw [stickyUpdate_pt]
    exact hpt
  have ht1 : (stickyUpdate st (nb I.mClose 0)
      (nb I.mAverage 0)).trap_start_time = some t0 := by
    rw [stickyUpdate_tst]
    exact ht
  have hsell : sellSection (stickyUpdate st (nb I.mClose 0)
      (nb I.mAverage 0)) I (nb I.mClose 0) =
      (stickyUpdate st (nb I.mClose 0) (nb I.mAverage 0), .noSignal) :=
    sellSection_pos0 _ _ _ hp
  have hce := confirmEval_eq (I.anchored t0) I.mClose l7
  by_cases h3 : (10 < (I.anchored t0).length ∧
      (nb (I.anchored t0) 0 < nb I.mClose 0 ∧
        nb (I.anchored t0) 1 < nb I.mClose 1))
  case neg =>
    have hval : confirmEval (I.anchored t0) I.mClose = .ok false := by
      rw [hce]
      simp only [Except.ok.injEq]
      rw [decide_eq_false_iff_not]
      exact h3
    rw [buyBranch_conf_skip _ _ _ _ _ t0 hpt1 ht1 hval, hsell] at hrun0
    constructor
    · intro o hord
      rw [hrun0] at hord
      exact absurd hord (by simp)
    · intro _
      rw [hrun0]
      exact ⟨rfl, hpt1, ht1, by simp, by simp⟩
  case pos =>
    have hval : confirmEval (I.anchored t0) I.mClose = .ok true := by
      rw [hce]
      simp only [Except.ok.injEq]
      rw [decide_eq_true_eq]
      exact h3
    rw [buyBranch_conf_go _ _ _ _ _ t0 hpt1 ht1 hval] at hrun0
    by_cases hsl : olsSlope (lastN 10 (I.anchored t0)) <
        olsSlope (lastN 10 I.mClose)
    case neg =>
      rw [show decide (olsSlope (lastN 10 (I.anchored t0)) <
          olsSlope (lastN 10 I.mClose)) = false by
        rw [decide_eq_false_iff_not]; exact hsl,
        afterBuy_false, hsell] at hrun0
      constructor
      · intro o hord
        rw [hrun0] at hord
        exact absurd hord (by simp)
      · intro _
        rw [hrun0]
        exact ⟨rfl, hpt1, ht1, by simp, by simp⟩
    case pos =>
      have hcond : 10 < (I.anchored t0).length ∧
          nb (I.anchored t0) 0 < nb I.mClose 0 ∧
          nb (I.anchored t0) 1 < nb I.mClose 1 ∧
          olsSlope (lastN 10 (I.anchored t0)) <
            olsSlope (lastN 10 I.mClose) :=
        ⟨h3.1, h3.2.1, h3.2.2, hsl⟩
      exact ⟨fun o _ => hcond, fun hn => absurd hcond hn⟩

theorem C2_witness :
    10 < ((buyIn 10 1 2 (some 100000) none).anchored 5).length ∧
      nb ((buyIn 10 1 2 (some 100000) none).anchored 5) 0 <
        nb (buyIn 10 1 2 (some 100000) none).mClose 0 ∧
      nb ((buyIn 10 1 2 (some 100000) none).anchored 5) 1 <
        nb (buyIn 10 1 2 (some 100000) none).mClose 1 ∧
      olsSlope (lastN 10 ((buyIn 10 1 2 (some 100000) none).anchored 5)) <
        olsSlope (lastN 10 (buyIn 10 1 2 (some 100000) none).mClose) :=
  (C2_confirmation buySt (buyIn 10 1 2 (some 100000) none) (buyR 10) 5
      rfl rfl rfl rfl rfl rfl rfl rfl (by norm_num [buyIn])
      (by simp [buyIn]) (by simp [buyIn]) (by simp [buyIn])).1
    ⟨"buy", sizedQty 100000 2, "limit", some 2⟩
    (by rw [buy_run_eval_gen 10 1 2 100000 one_pos (by norm_num)])

/-! Evaluation lemmas for the portfolio-value resolution. -/

theorem fetchLoop_conn (f : ℕ → FetchOutcome) (i r : ℕ)
    (h : f i = .connErr) :
    fetchLoop f i (r + 1) = fetchLoop f (i + 1) r := by
  conv_lhs => unfold fetchLoop
  rw [h]

theorem fetchLoop_other (f : ℕ → FetchOutcome) (i r : ℕ)
    (h : f i = .otherErr) : fetchLoop f i (r + 1) = .raised := by
  conv_lhs => unfold fetchLoop
  rw [h]

theorem resolvePV_some (I : RunInput) (pv : ℚ)
    (hpv : I.portfolio_value = some pv) : resolvePV I = .got pv := by
  unfold resolvePV
  rw [hpv]

theorem resolvePV_fatal (I : RunInput) (hpv : I.portfolio_value = none)
    (hapi : I.trading_api = none) : resolvePV I = .fatal := by
  unfold resolvePV
  rw [hpv, hapi]

theorem resolvePV_conn3 (I : RunInput) (f : ℕ → FetchOutcome)
    (hpv : I.portfolio_value = none) (hapi : I.trading_api = some f)
    (hc : ∀ i, i < 3 → f i = .connErr) : resolvePV I = .failed := by
  unfold resolvePV
  rw [hpv, hapi]
  have e : fetchLoop f 0 3 = .failed := by
    show fetchLoop f 0 (2 + 1) = .failed
    rw [fetchLoop_conn f 0 2 (hc 0 (by norm_num))]
    show fetchLoop f 1 (1 + 1) = .failed
    rw [fetchLoop_conn f 1 1 (hc 1 (by norm_num))]
    show fetchLoop f 2 (0 + 1) = .failed
    rw [fetchLoop_conn f 2 0 (hc 2 (by norm_num))]
    rfl
  show pvOfLoop (fetchLoop f 0 3) = PVRes.failed
  rw [e]
  rfl

theorem resolvePV_raised (I : RunInput) (f : ℕ → FetchOutcome)
    (hpv : I.portfolio_value = none) (hapi : I.trading_api = some f)
    (h : f 0 = .otherErr) : resolvePV I = .raised := by
  unfold resolvePV
  rw [hpv, hapi]
  have e : fetchLoop f 0 3 = .raised := by
    show fetchLoop f 0 (2 + 1) = .raised
    exact fetchLoop_other f 0 2 h
  show pvOfLoop (fetchLoop f 0 3) = PVRes.raised
  rw [e]
  rfl

/-- the confirmed-candidate path reaches the sizing step -/
theorem run_confirmed_reach (st : SymState) (I : RunInput) (R : Resampled)
    (t0 : ℕ) (h0 : I.shortable = true) (hb : I.is_buy_time = true)
    (hp : I.position = 0) (ho : I.open_order = false)
    (hw : st.was_above_vwap = true) (hpt : st.potential_trap = true)
    (ht : st.trap_start_time = some t0) (hr : I.resampled = some R)
    (l7 : 2 ≤ I.mClose.length) (l8 : I.mOpen ≠ []) (l9 : I.mAverage ≠ [])
    (l10 : I.mVwap ≠ []) (hlen : 10 < (I.anchored t0).length)
    (hc1 : nb (I.anchored t0) 0 < nb I.mClose 0)
    (hc2 : nb (I.anchored t0) 1 < nb I.mClose 1)
    (hsl : olsSlope (lastN 10 (I.anchored t0)) <
      olsSlope (lastN 10 I.mClose)) :
    run st I =
      afterBuy (stickyUpdate st (nb I.mClose 0) (nb I.mAverage 0)) I
        (nb I.mClose 0) true (rVw R) := by
  have hmc : I.mClose ≠ [] := by
    intro hh
    rw [hh] at l7
    simp at l7
  rw [run_eq_runBody st I h0 hmc l8 l9 l10,
    runBody_buy _ _ _ _ R hb hp ho (stickyUpdate_wav st _ _ hw) hr]
  have hval : confirmEval (I.anchored t0) I.mClose = .ok true := by
    rw [confirmEval_eq (I.anchored t0) I.mClose l7]
    simp only [Except.ok.injEq]
    rw [decide_eq_true_eq]
    exact ⟨hlen, hc1, hc2⟩
  rw [buyBranch_conf_go _ _ _ _ _ t0 (by rw [stickyUpdate_pt]; exact hpt)
    (by rw [stickyUpdate_tst]; exact ht) hval]
  rw [show decide (olsSlope (lastN 10 (I.anchored t0)) <
      olsSlope (lastN 10 I.mClose)) = true by
    rw [decide_eq_true_eq]; exact hsl]

/-- C6: on the confirmed buy path with no supplied portfolio value: a
missing trading API raises the fatal configuration error; an API whose
first three attempts all fail with connection errors leads to a silent
no-signal; and a non-connection exception on an attempt escapes
unretried. -/
theorem C6_portfolio_resolution (st : SymState) (I : RunInput)
    (R : Resampled) (t0 : ℕ) (h0 : I.shortable = true)
    (hb : I.is_buy_time = true) (hp : I.position = 0)
    (ho : I.open_order = false) (hw : st.was_above_vwap = true)
    (hpt : st.potential_trap = true) (ht : st.trap_start_time = some t0)
    (hr : I.resampled = some R) (l7 : 2 ≤ I.mClose.length)
    (l8 : I.mOpen ≠ []) (l9 : I.mAverage ≠ []) (l10 : I.mVwap ≠ [])
    (hlen : 10 < (I.anchored t0).length)
    (hc1 : nb (I.anchored t0) 0 < nb I.mClose 0)
    (hc2 : nb (I.anchored t0) 1 < nb I.mClose 1)
    (hsl : olsSlope (lastN 10 (I.anchored t0)) <
      olsSlope (lastN 10 I.mClose))
    (hv5 : R.vwap5 ≠ []) (hpv : I.portfolio_value = none) :
    (I.trading_api = none → (run st I).2 = .err .configError) ∧
    (∀ f, I.trading_api = some f → (∀ i, i < 3 → f i = .connErr) →
      (run st I).2 = .noSignal) ∧
    (∀ f, I.trading_api = some f → f 0 = .otherErr →
      (run st I).2 = .err .apiError) := by
  have hreach := run_confirmed_reach st I R t0 h0 hb hp ho hw hpt ht hr
    l7 l8 l9 l10 hlen hc1 hc2 hsl
  have hbv : back (rVw R) 0 = .ok (nb (rVw R) 0) :=
    back_ok (by
      rw [show (rVw R).length = R.vwap5.length by simp [rVw]]
      exact List.length_pos.mpr hv5)
  refine ⟨?_, ?_, ?_⟩
  · intro hapi
    rw [hreach, afterBuy_fatal _ _ _ _ _ hbv (resolvePV_fatal I hpv hapi)]
  · intro f hapi hc
    rw [hreach,
      afterBuy_failed _ _ _ _ _ hbv (resolvePV_conn3 I f hpv hapi hc)]
  · intro f hapi hother
    rw [hreach,
      afterBuy_raised _ _ _ _ _ hbv (resolvePV_raised I f hpv hapi hother)]

theorem C6_witness :
    (run buySt (buyIn 10 1 2 none none)).2 = .err .configError ∧
      (run buySt (buyIn 10 1 2 none
        (some fun _ => FetchOutcome.connErr))).2 = .noSignal ∧
      (run buySt (buyIn 10 1 2 none
        (some fun _ => FetchOutcome.otherErr))).2 = .err .apiError := by
  have hlen1 : 10 < ((buyIn 10 1 2 none none).anchored 5).length := by
    rw [show (buyIn 10 1 2 none none).anchored 5 =
      List.replicate 11 (0:ℚ) from rfl]
    norm_num
  have hc11 : nb ((buyIn 10 1 2 none none).anchored 5) 0 <
      nb (buyIn 10 1 2 none none).mClose 0 := by
    rw [show nb ((buyIn 10 1 2 none none).anchored 5) 0 = 0 from rfl,
      show nb (buyIn 10 1 2 none none).mClose 0 = 2 from rfl]
    norm_num
  have hc21 : nb ((buyIn 10 1 2 none none).anchored 5) 1 <
      nb (buyIn 10 1 2 none none).mClose 1 := by
    rw [show nb ((buyIn 10 1 2 none none).anchored 5) 1 = 0 from rfl,
      show nb (buyIn 10 1 2 none none).mClose 1 = 1 from rfl]
    norm_num
  have hsl1 : olsSlope (lastN 10 ((buyIn 10 1 2 none none).anchored 5)) <
      olsSlope (lastN 10 (buyIn 10 1 2 none none).mClose) := by
    rw [show (buyIn 10 1 2 none none).anchored 5 =
      List.replicate 11 (0:ℚ) from rfl,
      show (buyIn 10 1 2 none none).mClose =
        [0, 0, 0, 0, 0, 0, 0, 0, 0, 1, 2] from rfl]
    exact slope_pos 1 2 one_pos (by norm_num)
  have h1 := C6_portfolio_resolution buySt (buyIn 10 1 2 none none)
    (buyR 10) 5 rfl rfl rfl rfl rfl rfl rfl rfl (by norm_num [buyIn])
    (by simp [buyIn]) (by simp [buyIn]) (by simp [buyIn]) hlen1 hc11
    hc21 hsl1 (by simp [buyR]) rfl
  have h2 := C6_portfolio_resolution buySt
    (buyIn 10 1 2 none (some fun _ => FetchOutcome.connErr))
    (buyR 10) 5 rfl rfl rfl rfl rfl rfl rfl rfl (by norm_num [buyIn])
    (by simp [buyIn]) (by simp [buyIn]) (by simp [buyIn]) hlen1 hc11
    hc21 hsl1 (by simp [buyR]) rfl
  have h3 := C6_portfolio_resolution buySt
    (buyIn 10 1 2 none (some fun _ => FetchOutcome.otherErr))
    (buyR 10) 5 rfl rfl rfl rfl rfl rfl rfl rfl (by norm_num [buyIn])
    (by simp [buyIn]) (by simp [buyIn]) (by simp [buyIn]) hlen1 hc11
    hc21 hsl1 (by simp [buyR]) rfl
  exact ⟨h1.1 rfl, h2.2.1 (fun _ => FetchOutcome.connErr) rfl
    (fun i _ => rfl), h3.2.2 (fun _ => FetchOutcome.otherErr) rfl rfl⟩

/-- C9 (amended): an invocation that returns no signal leaves the
diagnostic reasons untouched and either leaves the trap state and
bracket untouched, or performed the silent `NONE to CANDIDATE`
transition (setting `potential_trap` and `trap_start_time`), or — when
the abstention came from a failed portfolio fetch — has already
overwritten `stop_price` and `target_price` with the new bracket;
re-running from an unchanged state with the same inputs abstains
identically. -/
theorem C9_abstention_effects (st : SymState) (I : RunInput)
    (h : (run st I).2 = .noSignal) :
    (run st I).1.sell_reasons = st.sell_reasons ∧
    (((run st I).1.potential_trap = st.potential_trap ∧
        (run st I).1.trap_start_time = st.trap_start_time) ∨
      (st.potential_trap = false ∧ (run st I).1.potential_trap = true ∧
        (run st I).1.trap_start_time = some I.now)) ∧
    (((run st I).1.stop_price = st.stop_price ∧
        (run st I).1.target_price = st.target_price) ∨
      (st.potential_trap = true ∧ resolvePV I = .failed ∧
        ∃ R, I.resampled = some R ∧
          (run st I).1.stop_price =
            some (pyRound 2 (nb (rVw R) 0 * (98/100))) ∧
          (run st I).1.target_price =
            some (pyRound 2 (nb (rVw R) 0 * (98/100) * (11/10))))) ∧
    ((run st I).1 = st → (run ((run st I).1) I).2 = .noSignal) := by
  rcases run_char st I with hA | hB | hC
  · refine ⟨hA.2.2.2.2.1 h, Or.inl ⟨hA.1, hA.2.1⟩,
      Or.inl ⟨hA.2.2.1, hA.2.2.2.1⟩, ?_⟩
    intro heq
    rw [heq]
    exact h
  · refine ⟨hB.2.2.2.2.2.1, Or.inr ⟨hB.1, hB.2.1, hB.2.2.1⟩,
      Or.inl ⟨hB.2.2.2.1, hB.2.2.2.2.1⟩, ?_⟩
    intro heq
    rw [heq]
    exact h
  · obtain ⟨hpt, hpt2, htst, hsr, R, hres, hstop, htarget, houts⟩ := hC
    rcases houts with ⟨hn, hfail⟩ | ⟨hn, _⟩ | ⟨hn, _⟩ | ⟨pv2, _, hord⟩
    · refine ⟨hsr, Or.inl ⟨by rw [hpt2, hpt], htst⟩,
        Or.inr ⟨hpt, hfail, R, hres, hstop, htarget⟩, ?_⟩
      intro heq
      rw [heq]
      exact h
    · rw [hn] at h
      exact absurd h (by simp)
    · rw [hn] at h
      exact absurd h (by simp)
    · rw [hord] at h
      exact absurd h (by simp)

theorem pyRound2_980 : pyRound 2 ((10:ℚ) * (98/100)) = 49/5 := by
  unfold pyRound
  rw [show ((10:ℚ) * (98/100)) * 10 ^ 2 = ((980:ℤ):ℚ) by norm_num,
    rnd_intCast]
  norm_num

/-- the fetch-failure abstention at the buy scenario -/
theorem buy_run_eval_fetchfail :
    run buySt (buyIn 10 1 2 none (some fun _ => FetchOutcome.connErr)) =
      (bracketState (stickyUpdate buySt 2 1) (pyRound 3 10),
        .noSignal) := by
  have h := buy_reach 10 1 2 none (some fun _ => FetchOutcome.connErr)
    one_pos (by norm_num)
  rw [afterBuy_failed (stickyUpdate buySt 2 1)
    (buyIn 10 1 2 none (some fun _ => FetchOutcome.connErr)) 2
    [pyRound 3 10] (pyRound 3 10) rfl
    (resolvePV_conn3 _ (fun _ => FetchOutcome.connErr) rfl rfl
      (fun i _ => rfl))] at h
  exact h

/-- C9 counterexample: an invocation that abstains because the
portfolio fetch failed has nevertheless overwritten the stored stop
price (from absent to 9.80). -/
theorem C9_counterexample :
    (run buySt (buyIn 10 1 2 none
      (some fun _ => FetchOutcome.connErr))).2 = .noSignal ∧
    buySt.stop_price = none ∧
    (run buySt (buyIn 10 1 2 none
      (some fun _ => FetchOutcome.connErr))).1.stop_price =
      some (49/5) := by
  rw [buy_run_eval_fetchfail]
  refine ⟨rfl, rfl, ?_⟩
  rw [bracketState_stop, pyRound3_ten, pyRound2_980]

theorem C9_witness :
    (run buySt (buyIn 10 1 2 none
      (some fun _ => FetchOutcome.connErr))).1.sell_reasons =
      buySt.sell_reasons :=
  (C9_abstention_effects buySt
    (buyIn 10 1 2 none (some fun _ => FetchOutcome.connErr))
    (by rw [buy_run_eval_fetchfail])).1

end STB
